import Mathlib

/-!
# HGM_ThreePresSnsr: three-pressure-sensor I2C driver

A shallow embedding of `libraries/HGM_ThreePresSnsr/HGM_ThreePresSnsr.cpp` and
`HGM_ThreePresSnsr.h`, followed by theorems about it.

Conventions of the embedding

* `uint32_t` and `uint8_t` values are natural numbers; the unsigned 32-bit
  subtraction of the source is `sub32`.
* `int16_t` / `int` values are two's-complement bit patterns (natural numbers);
  `to_int16` is the narrowing store into an `int16_t`, `promote_int16` the
  integer promotion (sign extension to 32 bits), `int16_val` the signed value.
* `float` values are exact rationals.
* Everything the driver obtains from the HAL (results of `transfer`, of the
  semaphore `take`, of `get_device`, and every reading of `AP_HAL::millis()`)
  is an input of the embedded function; everything it does to the HAL is
  recorded in the returned list of `Event`s, in program order.
-/

namespace HGM_ThreePresSnsr

/-! ## Data model -/

/-- The three sensors: `_dev_snsrRM`, `_dev_snsrUD`, `_dev_snsrLR`. -/
inductive Chan where
  | RM
  | UD
  | LR
  deriving DecidableEq

/-- The receive buffer `uint8_t data_XX[4]`. -/
structure Data where
  b0 : Nat
  b1 : Nat
  b2 : Nat
  b3 : Nat
  deriving DecidableEq

/-- Every byte of the buffer is a `uint8_t`. -/
def Data.wf (d : Data) : Prop :=
  d.b0 < 256 ∧ d.b1 < 256 ∧ d.b2 < 256 ∧ d.b3 < 256

instance (d : Data) : Decidable d.wf := by
  unfold Data.wf
  exact inferInstance

/-- The member variables of `class HGM_ThreePresSnsr` (the device handles are
inputs of `init`; `_measure`, `_collect` and `_timer` run with handles present). -/
structure Driver where
  _enable : Int
  _pressure_RM : ℚ
  _pressure_UD : ℚ
  _pressure_LR : ℚ
  _temperature_RM : ℚ
  _temperature_UD : ℚ
  _temperature_LR : ℚ
  _healthy : Bool
  _last_sample_time_ms : Nat
  _measurement_started_ms : Nat
  deriving DecidableEq

/-- What the driver does to the outside world, plus markers for the entry of
`_measure` and `_collect`. -/
inductive Event where
  /-- entry of `_measure()` -/
  | call_measure
  /-- entry of `_collect()` -/
  | call_collect
  /-- the call `get_semaphore()->take(timeout)` and its result -/
  | take (c : Chan) (timeout : Nat) (ok : Bool)
  /-- the call `get_semaphore()->take_nonblocking()` and its result -/
  | take_nonblocking (c : Chan) (ok : Bool)
  /-- the call `get_semaphore()->give()` -/
  | give (c : Chan)
  /-- the call `transfer(&cmd, 1, nullptr, 0)` with the command byte, and its result -/
  | transfer_cmd (c : Chan) (cmd : Nat) (ok : Bool)
  /-- the call `transfer(nullptr, 0, data, sizeof(data))` with the length, and its result -/
  | transfer_read (c : Chan) (len : Nat) (ok : Bool)
  /-- a call of `AP_HAL::millis()` -/
  | millis
  /-- the call `hal.scheduler->delay(ms)` -/
  | delay (ms : Nat)
  /-- the call `hal.scheduler->register_timer_process(_timer)` -/
  | register_timer_process
  deriving DecidableEq

/-! ## Machine arithmetic -/

/-- Subtraction of `uint32_t`: `a - b` modulo `2^32`. -/
def sub32 (a b : Nat) : Nat := (a % 2 ^ 32 + 2 ^ 32 - b % 2 ^ 32) % 2 ^ 32

/-- Store of an `int` bit pattern into an `int16_t`: the low 16 bits. -/
def to_int16 (x : Nat) : Nat := x % 2 ^ 16

/-- Integer promotion of an `int16_t` bit pattern to a 32-bit `int` bit pattern. -/
def promote_int16 (p : Nat) : Nat := if p < 2 ^ 15 then p else p + (2 ^ 32 - 2 ^ 16)

/-- Signed value of an `int16_t` bit pattern. -/
def int16_val (p : Nat) : Int := if p < 2 ^ 15 then (p : Int) else (p : Int) - 2 ^ 16

/-! ## Decoding of one response (lines 176-192, the same for the three sensors) -/

/-- The first store `p_XX = (data_XX[0] << 8) + data_XX[1];`. -/
def p_word (d : Data) : Nat := to_int16 ((d.b0 <<< 8) + d.b1)

/-- The value of `p_XX` after `p_XX = 0x3FFF & p_XX;`. -/
def raw_p (d : Data) : Nat := to_int16 (0x3FFF &&& promote_int16 (p_word d))

/-- The first store `T_XX = (data_XX[2] << 8) + data_XX[3];`. -/
def T_word (d : Data) : Nat := to_int16 ((d.b2 <<< 8) + d.b3)

/-- The value of `T_XX` after `T_XX = (0xFFE0 & T_XX) >> 5;`. -/
def raw_T (d : Data) : Nat := to_int16 ((0xFFE0 &&& promote_int16 (T_word d)) >>> 5)

/-- The status byte `data_XX[0] & 0xC0`. -/
def status (d : Data) : Nat := d.b0 &&& 0xC0

/-! ## Conversion constants and formulas (lines 194-207) -/

/-- Line 194. -/
def temp_bits_max : ℚ := 16383

/-- Line 197. -/
def B_min : ℚ := 0.05 * temp_bits_max

/-- Line 198. -/
def B_max : ℚ := 0.95 * temp_bits_max

/-- Line 199. -/
def inh2o_to_pa : ℚ := 249.088908333

/-- Line 201, `_pressure_RM` from the `int16_t` bit pattern `p`. -/
def pressure_RM_of (p : Nat) : ℚ :=
  (((int16_val p : Int) : ℚ) - B_min) * (5 * inh2o_to_pa) / (B_max - B_min) + 0

/-- Lines 202 and 203, `_pressure_UD` and `_pressure_LR` from the bit pattern `p`. -/
def pressure_UD_of (p : Nat) : ℚ :=
  (((int16_val p : Int) : ℚ) - B_min) * (4 * inh2o_to_pa) / (B_max - B_min) + (-2 * inh2o_to_pa)

/-- Lines 205-207, the temperature from the `int16_t` bit pattern `T`. -/
def temperature_of (T : Nat) : ℚ :=
  ((200 * ((int16_val T : Int) : ℚ)) / 2047) - 50

/-! ## The driver -/

/-- The method `_measure()`. `cmd_XX` is the result of the command transfer to sensor `XX`
(consulted in the order RM, UD, LR, stopping at the first failure) and `now` the
value of `AP_HAL::millis()`. -/
def _measure (s : Driver) (cmd_RM cmd_UD cmd_LR : Bool) (now : Nat) : Driver × List Event :=
  let s0 := { s with _measurement_started_ms := 0 }
  if !cmd_RM then
    (s0, [Event.call_measure, Event.transfer_cmd Chan.RM 0 false])
  else if !cmd_UD then
    (s0, [Event.call_measure, Event.transfer_cmd Chan.RM 0 true,
          Event.transfer_cmd Chan.UD 0 false])
  else if !cmd_LR then
    (s0, [Event.call_measure, Event.transfer_cmd Chan.RM 0 true,
          Event.transfer_cmd Chan.UD 0 true, Event.transfer_cmd Chan.LR 0 false])
  else
    ({ s0 with _measurement_started_ms := now },
     [Event.call_measure, Event.transfer_cmd Chan.RM 0 true,
      Event.transfer_cmd Chan.UD 0 true, Event.transfer_cmd Chan.LR 0 true, Event.millis])

/-- The method `_collect()`. `rd_XX` is the outcome of the read transfer from sensor `XX`:
`none` when `transfer` returned false, `some data` with the received bytes when
it returned true; `now` is the value of `AP_HAL::millis()`. -/
def _collect (s : Driver) (rd_RM rd_UD rd_LR : Option Data) (now : Nat) : Driver × List Event :=
  let s0 := { s with _measurement_started_ms := 0 }
  match rd_RM with
  | none => (s0, [Event.call_collect, Event.transfer_read Chan.RM 4 false])
  | some data_RM =>
    match rd_UD with
    | none => (s0, [Event.call_collect, Event.transfer_read Chan.RM 4 true,
                    Event.transfer_read Chan.UD 4 false])
    | some data_UD =>
      match rd_LR with
      | none => (s0, [Event.call_collect, Event.transfer_read Chan.RM 4 true,
                      Event.transfer_read Chan.UD 4 true, Event.transfer_read Chan.LR 4 false])
      | some data_LR =>
        let tr := [Event.call_collect, Event.transfer_read Chan.RM 4 true,
                   Event.transfer_read Chan.UD 4 true, Event.transfer_read Chan.LR 4 true]
        let status_RM := status data_RM
        if status_RM = 1 ∨ status_RM = 2 then (s0, tr) else
        let status_UD := status data_UD
        if status_UD = 1 ∨ status_UD = 2 then (s0, tr) else
        let status_LR := status data_LR
        if status_LR = 1 ∨ status_LR = 2 then (s0, tr) else
        let p_RM := raw_p data_RM
        let T_RM := raw_T data_RM
        let p_UD := raw_p data_UD
        let T_UD := raw_T data_UD
        let p_LR := raw_p data_LR
        let T_LR := raw_T data_LR
        ({ s0 with
            _pressure_RM := pressure_RM_of p_RM
            _pressure_UD := pressure_UD_of p_UD
            _pressure_LR := pressure_UD_of p_LR
            _temperature_RM := temperature_of T_RM
            _temperature_UD := temperature_of T_UD
            _temperature_LR := temperature_of T_LR
            _last_sample_time_ms := now },
         tr ++ [Event.millis])

/-- The outcomes of the HAL calls made by one `_timer()` invocation, each consulted
only if the invocation reaches the call: the three `take_nonblocking()`, the
`millis()` of line 228, and the inputs of `_collect` and `_measure`. -/
structure TimerEnv where
  take_RM : Bool
  take_UD : Bool
  take_LR : Bool
  t_check : Nat
  rd_RM : Option Data
  rd_UD : Option Data
  rd_LR : Option Data
  t_collect : Nat
  cmd_RM : Bool
  cmd_UD : Bool
  cmd_LR : Bool
  t_measure : Nat

/-- The three `give()` calls, in source order. -/
def give_all : List Event := [Event.give Chan.RM, Event.give Chan.UD, Event.give Chan.LR]

/-- The method `_timer()`, the periodic callback. -/
def _timer (s : Driver) (e : TimerEnv) : Driver × List Event :=
  if !e.take_RM then
    (s, [Event.take_nonblocking Chan.RM false])
  else if !e.take_UD then
    (s, [Event.take_nonblocking Chan.RM true, Event.take_nonblocking Chan.UD false])
  else if !e.take_LR then
    (s, [Event.take_nonblocking Chan.RM true, Event.take_nonblocking Chan.UD true,
         Event.take_nonblocking Chan.LR false])
  else
    let tk := [Event.take_nonblocking Chan.RM true, Event.take_nonblocking Chan.UD true,
               Event.take_nonblocking Chan.LR true]
    if s._measurement_started_ms = 0 then
      let m := _measure s e.cmd_RM e.cmd_UD e.cmd_LR e.t_measure
      (m.1, tk ++ m.2 ++ give_all)
    else if sub32 e.t_check s._measurement_started_ms > 10 then
      let c := _collect s e.rd_RM e.rd_UD e.rd_LR e.t_collect
      let m := _measure c.1 e.cmd_RM e.cmd_UD e.cmd_LR e.t_measure
      (m.1, tk ++ [Event.millis] ++ c.2 ++ m.2 ++ give_all)
    else
      (s, tk ++ [Event.millis] ++ give_all)

/-- The outcomes of the HAL calls made by one `init()` call, each consulted only
if the call is reached: whether `get_device` returned a handle, the three
`take(200)`, and the inputs of `_measure` and `_collect`. -/
structure InitEnv where
  dev_RM : Bool
  dev_UD : Bool
  dev_LR : Bool
  take_RM : Bool
  take_UD : Bool
  take_LR : Bool
  cmd_RM : Bool
  cmd_UD : Bool
  cmd_LR : Bool
  t_measure : Nat
  rd_RM : Option Data
  rd_UD : Option Data
  rd_LR : Option Data
  t_collect : Nat

/-- The condition of lines 115-117 with the semaphore calls it makes, evaluated
left to right with short circuit: `false` when the condition is true (`init`
returns false), `true` when all three handles exist and all three locks are held. -/
def init_take (e : InitEnv) : Bool × List Event :=
  if !e.dev_RM then (false, [])
  else if !e.take_RM then (false, [Event.take Chan.RM 200 false])
  else if !e.dev_UD then (false, [Event.take Chan.RM 200 true])
  else if !e.take_UD then
    (false, [Event.take Chan.RM 200 true, Event.take Chan.UD 200 false])
  else if !e.dev_LR then
    (false, [Event.take Chan.RM 200 true, Event.take Chan.UD 200 true])
  else if !e.take_LR then
    (false, [Event.take Chan.RM 200 true, Event.take Chan.UD 200 true,
             Event.take Chan.LR 200 false])
  else
    (true, [Event.take Chan.RM 200 true, Event.take Chan.UD 200 true,
            Event.take Chan.LR 200 true])

/-- The method `init()`: its return value, the state after it, and what it did. -/
def init (s : Driver) (e : InitEnv) : Bool × Driver × List Event :=
  let tk := init_take e
  if !tk.1 then
    (false, s, tk.2)
  else
    let m := _measure s e.cmd_RM e.cmd_UD e.cmd_LR e.t_measure
    let c := _collect m.1 e.rd_RM e.rd_UD e.rd_LR e.t_collect
    let tr := tk.2 ++ m.2 ++ [Event.delay 10] ++ c.2 ++ give_all
    if c.1._last_sample_time_ms ≠ 0 then
      (true, c.1, tr ++ [Event.register_timer_process])
    else
      (false, c.1, tr)

/-- The method `enabled()`: the `AP_Int8` parameter converted to `bool`. -/
def enabled (s : Driver) : Bool := s._enable != 0

/-- The method `healthy()`. -/
def healthy (s : Driver) : Bool := s._healthy && enabled s

/-- The body shared by the three pressure accessors, `cached` being the member
the accessor reads; `now` is the value of `AP_HAL::millis()`. -/
def get_pressure (s : Driver) (cached : ℚ) (now : Nat) : ℚ × Driver :=
  if !enabled s then
    (0, s)
  else if sub32 now s._last_sample_time_ms > 100 then
    (0, { s with _healthy := false })
  else
    (cached, { s with _healthy := true })

/-- The method `get_pressure_RM()`: the returned value and the state after it. -/
def get_pressure_RM (s : Driver) (now : Nat) : ℚ × Driver :=
  get_pressure s s._pressure_RM now

/-- The method `get_pressure_UD()`. -/
def get_pressure_UD (s : Driver) (now : Nat) : ℚ × Driver :=
  get_pressure s s._pressure_UD now

/-- The method `get_pressure_LR()`. -/
def get_pressure_LR (s : Driver) (now : Nat) : ℚ × Driver :=
  get_pressure s s._pressure_LR now

/-- The method `get_temperature_RM()`. -/
def get_temperature_RM (s : Driver) : ℚ × Driver :=
  if !enabled s then (0, s) else (s._temperature_RM, s)

/-- The method `get_temperature_UD()`. -/
def get_temperature_UD (s : Driver) : ℚ × Driver :=
  if !enabled s then (0, s) else (s._temperature_UD, s)

/-- The method `get_temperature_LR()`. -/
def get_temperature_LR (s : Driver) : ℚ × Driver :=
  if !enabled s then (0, s) else (s._temperature_LR, s)

/-! ## Observations on traces and states -/

/-- The entries of a trace that mark the entry of `_measure` or `_collect`. -/
def calls (tr : List Event) : List Event :=
  tr.filter (fun ev => ev = Event.call_measure ∨ ev = Event.call_collect)

/-- The six cached values and `_last_sample_time_ms` agree in two states. -/
def same_sample (s t : Driver) : Prop :=
  t._pressure_RM = s._pressure_RM ∧ t._pressure_UD = s._pressure_UD ∧
  t._pressure_LR = s._pressure_LR ∧ t._temperature_RM = s._temperature_RM ∧
  t._temperature_UD = s._temperature_UD ∧ t._temperature_LR = s._temperature_LR ∧
  t._last_sample_time_ms = s._last_sample_time_ms

/-- The six cached values of `t` are the conversions of the three responses and
`_last_sample_time_ms` is `now`: the seven assignments of lines 201-209. -/
def committed (t : Driver) (dRM dUD dLR : Data) (now : Nat) : Prop :=
  t._pressure_RM = pressure_RM_of (raw_p dRM) ∧
  t._pressure_UD = pressure_UD_of (raw_p dUD) ∧
  t._pressure_LR = pressure_UD_of (raw_p dLR) ∧
  t._temperature_RM = temperature_of (raw_T dRM) ∧
  t._temperature_UD = temperature_of (raw_T dUD) ∧
  t._temperature_LR = temperature_of (raw_T dLR) ∧
  t._last_sample_time_ms = now

/-- The run of `_collect` reaches line 209 (it reads the clock to commit). -/
def collect_commits (s : Driver) (rd_RM rd_UD rd_LR : Option Data) (now : Nat) : Prop :=
  Event.millis ∈ (_collect s rd_RM rd_UD rd_LR now).2

/-- The number of `register_timer_process` calls in a trace. -/
def registrations (tr : List Event) : Nat := tr.count Event.register_timer_process

/-- The entries of a trace that are bus transfers. -/
def transfers (tr : List Event) : List Event :=
  tr.filter (fun ev => match ev with
    | Event.transfer_cmd _ _ _ => true
    | Event.transfer_read _ _ _ => true
    | _ => false)

/-- The state a freshly constructed (zero-initialised, enabled) driver is in. -/
def fresh : Driver :=
  { _enable := 1, _pressure_RM := 0, _pressure_UD := 0, _pressure_LR := 0,
    _temperature_RM := 0, _temperature_UD := 0, _temperature_LR := 0,
    _healthy := false, _last_sample_time_ms := 0, _measurement_started_ms := 0 }

/-- A state with a committed sample and a measurement in flight since time 1000. -/
def sampled : Driver :=
  { _enable := 1, _pressure_RM := 1, _pressure_UD := 2, _pressure_LR := 3,
    _temperature_RM := 4, _temperature_UD := 5, _temperature_LR := 6,
    _healthy := true, _last_sample_time_ms := 1000, _measurement_started_ms := 1000 }

/-- An all-zero response: status `0b00`, raw codes 0. -/
def zero_data : Data := ⟨0, 0, 0, 0⟩

/-- A `_timer` invocation at time `t` in which every lock is obtained and every
transfer succeeds, the reads returning `zero_data`. -/
def timer_ok (t : Nat) : TimerEnv :=
  { take_RM := true, take_UD := true, take_LR := true, t_check := t,
    rd_RM := some zero_data, rd_UD := some zero_data, rd_LR := some zero_data,
    t_collect := t, cmd_RM := true, cmd_UD := true, cmd_LR := true, t_measure := t }

/-- An `init` call at which every handle exists, every lock and command transfer
succeeds, and the three reads fail. -/
def init_reads_fail : InitEnv :=
  { dev_RM := true, dev_UD := true, dev_LR := true,
    take_RM := true, take_UD := true, take_LR := true,
    cmd_RM := true, cmd_UD := true, cmd_LR := true, t_measure := 5000,
    rd_RM := none, rd_UD := none, rd_LR := none, t_collect := 5010 }

/-- An `init` call at which everything succeeds, the reads returning `zero_data`. -/
def init_ok : InitEnv :=
  { init_reads_fail with
    rd_RM := some zero_data, rd_UD := some zero_data, rd_LR := some zero_data }

/-- The status bits (top two bits of the first byte) of a response. -/
def status_bits (d : Data) : Nat := d.b0 / 64

/-- The invocation of `_timer` calls `_collect`, and that run of `_collect` (on the
state the invocation started in) commits a sample. -/
def timer_commits (s : Driver) (e : TimerEnv) : Prop :=
  Event.call_collect ∈ (_timer s e).2 ∧
  collect_commits s e.rd_RM e.rd_UD e.rd_LR e.t_collect

instance (s : Driver) (e : TimerEnv) : Decidable (timer_commits s e) := by
  unfold timer_commits collect_commits
  exact inferInstance

/-- The clock readings of one `_timer` invocation are taken in program order on a
clock that does not go back and has not wrapped: they are at least `t`, the last
reading before the invocation, non-decreasing, and below `2^32`. -/
def TimerEnv.clock_from (e : TimerEnv) (t : Nat) : Prop :=
  t ≤ e.t_check ∧ e.t_check ≤ e.t_collect ∧ e.t_collect ≤ e.t_measure ∧
  e.t_measure < 2 ^ 32

/-- The clock does not go back and does not wrap over a sequence of `_timer`
invocations that follows a reading `t`. -/
def clock_nondecreasing : Nat → List TimerEnv → Prop
  | _, [] => True
  | t, e :: es => e.clock_from t ∧ clock_nondecreasing e.t_measure es

/-- The values of `_last_sample_time_ms` after each of a sequence of `_timer`
invocations started in state `s`. -/
def last_sample_times (s : Driver) : List TimerEnv → List Nat
  | [] => []
  | e :: es => (_timer s e).1._last_sample_time_ms :: last_sample_times (_timer s e).1 es

/-- The clock values at which the invocations of a sequence of `_timer`
invocations started in state `s` commit a sample, in order. -/
def commit_times (s : Driver) : List TimerEnv → List Nat
  | [] => []
  | e :: es =>
    if timer_commits s e then e.t_collect :: commit_times (_timer s e).1 es
    else commit_times (_timer s e).1 es

/-- The timestamps held in the state are not later than the clock reading `t`, and a
measurement in flight was started at or after the last sample. -/
def run_inv (s : Driver) (t : Nat) : Prop :=
  s._last_sample_time_ms ≤ t ∧
  (s._measurement_started_ms ≠ 0 →
    s._last_sample_time_ms ≤ s._measurement_started_ms ∧ s._measurement_started_ms ≤ t)

/-- The pressure formula in the words of the specification, over exact rationals:
`(p - B_min) * span / (B_max - B_min) + offset` with `B_min = 0.05 * 16383` and
`B_max = 0.95 * 16383`. To be compared with `pressure_RM_of` and `pressure_UD_of`. -/
def spec_pressure (span offset p : ℚ) : ℚ :=
  (p - 0.05 * 16383) * span / (0.95 * 16383 - 0.05 * 16383) + offset

/-- The specification's pascals per inch of water. -/
def spec_k : ℚ := 249.088908333

/-- The temperature formula in the words of the specification, over exact
rationals: `200 * raw / 2047 - 50`. To be compared with `temperature_of`. -/
def spec_temperature (raw : ℚ) : ℚ := 200 * raw / 2047 - 50

/-- The 14-bit pressure code of a response: the lower 14 bits of `b0*256+b1`. -/
def code_p (d : Data) : Nat := (d.b0 * 256 + d.b1) % 16384

/-- The 11-bit temperature code of a response: the upper 11 bits of `b2*256+b3`. -/
def code_T (d : Data) : Nat := (d.b2 * 256 + d.b3) / 32

/-- The locks held after a trace, given those held before it: a successful
`take` or `take_nonblocking` acquires the lock of its sensor, `give` releases it. -/
def held_after (held : List Chan) : List Event → List Chan
  | [] => held
  | Event.take_nonblocking c true :: tr => held_after (c :: held) tr
  | Event.take c _ true :: tr => held_after (c :: held) tr
  | Event.give c :: tr => held_after (held.erase c) tr
  | _ :: tr => held_after held tr

/-- A `_timer` invocation at time 1011 in which the lock of RM is obtained and the
lock of UD is not. -/
def timer_UD_busy : TimerEnv := { timer_ok 1011 with take_UD := false }

/-- The state `sampled` with the enable parameter set to 0. -/
def disabled : Driver := { sampled with _enable := 0 }

/-- A response whose status bits are `0b11` (fault). -/
def fault_data : Data := ⟨0xC0, 0, 0, 0⟩

/-- A driver state whose `_last_sample_time_ms` (1000000) is ahead of the clock
values used in the examples, the other members as in `fresh`. -/
def ahead : Driver := { fresh with _last_sample_time_ms := 1000000 }

/-! ## Helper lemmas -/

theorem status_mod_64 (d : Data) : status d % 64 = 0 := by
  have h : status d &&& (2 ^ 6 - 1) = 0 := by
    unfold status
    have h0 : (0xC0 &&& (2 ^ 6 - 1) : Nat) = 0 := by decide
    rw [Nat.and_assoc, h0, Nat.and_zero]
  rwa [Nat.and_pow_two_sub_one_eq_mod] at h

theorem status_not_rejected (d : Data) : ¬ (status d = 1 ∨ status d = 2) := by
  have h := status_mod_64 d
  omega

/-- When the three reads succeed, `_collect` commits, whatever the status bits. -/
theorem collect_some (s : Driver) (dRM dUD dLR : Data) (now : Nat) :
    (_collect s (some dRM) (some dUD) (some dLR) now).1 =
      { s with
          _measurement_started_ms := 0
          _pressure_RM := pressure_RM_of (raw_p dRM)
          _pressure_UD := pressure_UD_of (raw_p dUD)
          _pressure_LR := pressure_UD_of (raw_p dLR)
          _temperature_RM := temperature_of (raw_T dRM)
          _temperature_UD := temperature_of (raw_T dUD)
          _temperature_LR := temperature_of (raw_T dLR)
          _last_sample_time_ms := now } := by
  simp [_collect, status_not_rejected]

theorem calls_append (a b : List Event) : calls (a ++ b) = calls a ++ calls b := by
  simp [calls]

theorem transfers_append (a b : List Event) :
    transfers (a ++ b) = transfers a ++ transfers b := by
  simp [transfers]

theorem calls_measure (s : Driver) (c1 c2 c3 : Bool) (now : Nat) :
    calls (_measure s c1 c2 c3 now).2 = [Event.call_measure] := by
  cases c1 <;> cases c2 <;> cases c3 <;> rfl

theorem calls_collect (s : Driver) (r1 r2 r3 : Option Data) (now : Nat) :
    calls (_collect s r1 r2 r3 now).2 = [Event.call_collect] := by
  cases r1 with
  | none => rfl
  | some d1 =>
    cases r2 with
    | none => rfl
    | some d2 =>
      cases r3 with
      | none => rfl
      | some d3 => simp [_collect, status_not_rejected, calls]

/-- The state after `_measure` is the state before it with only
`_measurement_started_ms` replaced. -/
theorem measure_state (s : Driver) (c1 c2 c3 : Bool) (now : Nat) :
    (_measure s c1 c2 c3 now).1 =
      { s with _measurement_started_ms := if c1 && c2 && c3 then now else 0 } := by
  cases c1 <;> cases c2 <;> cases c3 <;> rfl

/-- A failed read makes `_collect` only clear `_measurement_started_ms`. -/
theorem collect_none (s : Driver) (r1 r2 r3 : Option Data) (now : Nat)
    (h : r1 = none ∨ r2 = none ∨ r3 = none) :
    (_collect s r1 r2 r3 now).1 = { s with _measurement_started_ms := 0 } := by
  cases r1 with
  | none => rfl
  | some d1 =>
    cases r2 with
    | none => rfl
    | some d2 =>
      cases r3 with
      | none => rfl
      | some d3 => simp at h

/-- The branch of `_timer` taken when the locks are held, a measurement is in
flight and more than 10 ms have elapsed. -/
theorem timer_branch_collect (s : Driver) (e : TimerEnv)
    (hRM : e.take_RM = true) (hUD : e.take_UD = true) (hLR : e.take_LR = true)
    (hstart : s._measurement_started_ms ≠ 0)
    (helapsed : sub32 e.t_check s._measurement_started_ms > 10) :
    _timer s e =
      ((_measure (_collect s e.rd_RM e.rd_UD e.rd_LR e.t_collect).1
          e.cmd_RM e.cmd_UD e.cmd_LR e.t_measure).1,
       [Event.take_nonblocking Chan.RM true, Event.take_nonblocking Chan.UD true,
        Event.take_nonblocking Chan.LR true] ++ [Event.millis] ++
       (_collect s e.rd_RM e.rd_UD e.rd_LR e.t_collect).2 ++
       (_measure (_collect s e.rd_RM e.rd_UD e.rd_LR e.t_collect).1
          e.cmd_RM e.cmd_UD e.cmd_LR e.t_measure).2 ++ give_all) := by
  have hgt : 10 < sub32 e.t_check s._measurement_started_ms := helapsed
  simp [_timer, hRM, hUD, hLR, hstart, hgt]

theorem and_shiftRight_distrib (a b i : Nat) :
    (a &&& b) >>> i = (a >>> i) &&& (b >>> i) := by
  apply Nat.eq_of_testBit_eq
  intro j
  simp

theorem and_FFE0_shift (x : Nat) : (0xFFE0 &&& x) >>> 5 = (x / 32) % 2048 := by
  rw [and_shiftRight_distrib]
  have h : (0xFFE0 >>> 5 : Nat) = 2 ^ 11 - 1 := by decide
  rw [h, Nat.and_comm, Nat.and_pow_two_sub_one_eq_mod, Nat.shiftRight_eq_div_pow]

theorem and_3FFF (x : Nat) : (0x3FFF &&& x) = x % 16384 := by
  have h : (0x3FFF : Nat) = 2 ^ 14 - 1 := by decide
  rw [h, Nat.and_comm, Nat.and_pow_two_sub_one_eq_mod]

theorem raw_p_eq (d : Data) : raw_p d = (d.b0 * 256 + d.b1) % 16384 := by
  unfold raw_p p_word promote_int16 to_int16
  rw [and_3FFF, Nat.shiftLeft_eq]
  split <;> omega

theorem raw_T_eq (d : Data) (h : d.wf) : raw_T d = (d.b2 * 256 + d.b3) / 32 := by
  obtain ⟨_, _, h2, h3⟩ := h
  unfold raw_T T_word promote_int16 to_int16
  rw [and_FFE0_shift, Nat.shiftLeft_eq]
  split <;> omega

theorem int16_val_of_lt (p : Nat) (h : p < 2 ^ 15) : int16_val p = (p : Int) := by
  unfold int16_val
  rw [if_pos h]

theorem same_sample_refl (s : Driver) : same_sample s s := by
  simp [same_sample]

theorem same_sample_measure (s t : Driver) (c1 c2 c3 : Bool) (now : Nat)
    (h : same_sample s t) : same_sample s (_measure t c1 c2 c3 now).1 := by
  rw [measure_state]
  exact h

theorem committed_measure (t : Driver) (dRM dUD dLR : Data) (tc : Nat)
    (c1 c2 c3 : Bool) (now : Nat) (h : committed t dRM dUD dLR tc) :
    committed (_measure t c1 c2 c3 now).1 dRM dUD dLR tc := by
  rw [measure_state]
  exact h

theorem same_sample_collect_none (s : Driver) (r1 r2 r3 : Option Data) (now : Nat)
    (h : r1 = none ∨ r2 = none ∨ r3 = none) :
    same_sample s (_collect s r1 r2 r3 now).1 := by
  rw [collect_none s r1 r2 r3 now h]
  simp [same_sample]

theorem committed_collect_some (s : Driver) (dRM dUD dLR : Data) (now : Nat) :
    committed (_collect s (some dRM) (some dUD) (some dLR) now).1 dRM dUD dLR now := by
  rw [collect_some]
  simp [committed]

/-- Either `_collect` leaves the sample as it was, or the three reads succeeded
and the whole sample is replaced. -/
theorem collect_cases (s : Driver) (r1 r2 r3 : Option Data) (now : Nat) :
    same_sample s (_collect s r1 r2 r3 now).1 ∨
    ∃ dRM dUD dLR, r1 = some dRM ∧ r2 = some dUD ∧ r3 = some dLR ∧
      committed (_collect s r1 r2 r3 now).1 dRM dUD dLR now := by
  cases r1 with
  | none => exact Or.inl (same_sample_collect_none _ _ _ _ _ (Or.inl rfl))
  | some d1 =>
    cases r2 with
    | none => exact Or.inl (same_sample_collect_none _ _ _ _ _ (Or.inr (Or.inl rfl)))
    | some d2 =>
      cases r3 with
      | none => exact Or.inl (same_sample_collect_none _ _ _ _ _ (Or.inr (Or.inr rfl)))
      | some d3 => exact Or.inr ⟨d1, d2, d3, rfl, rfl, rfl, committed_collect_some _ _ _ _ _⟩

/-- The state after `_timer` is the state before it, or that of `_measure`, or
that of `_collect` followed by `_measure`. -/
theorem timer_state_cases (s : Driver) (e : TimerEnv) :
    (_timer s e).1 = s ∨
    (_timer s e).1 = (_measure s e.cmd_RM e.cmd_UD e.cmd_LR e.t_measure).1 ∨
    (_timer s e).1 =
      (_measure (_collect s e.rd_RM e.rd_UD e.rd_LR e.t_collect).1
        e.cmd_RM e.cmd_UD e.cmd_LR e.t_measure).1 := by
  unfold _timer
  cases e.take_RM <;> cases e.take_UD <;> cases e.take_LR <;> simp
  by_cases h0 : s._measurement_started_ms = 0
  · simp [h0]
  · by_cases h1 : 10 < sub32 e.t_check s._measurement_started_ms
    · simp [h0, h1]
    · simp [h0, h1]

/-- The state after `init` is the state before it, or that of `_measure`
followed by `_collect`. -/
theorem init_state_cases (s : Driver) (e : InitEnv) :
    (init s e).2.1 = s ∨
    (init s e).2.1 =
      (_collect (_measure s e.cmd_RM e.cmd_UD e.cmd_LR e.t_measure).1
        e.rd_RM e.rd_UD e.rd_LR e.t_collect).1 := by
  unfold init
  by_cases h : (init_take e).1 = true
  · right
    by_cases hl : (_collect (_measure s e.cmd_RM e.cmd_UD e.cmd_LR e.t_measure).1
        e.rd_RM e.rd_UD e.rd_LR e.t_collect).1._last_sample_time_ms = 0
    · simp [h, hl]
    · simp [h, hl]
  · left
    simp [h]

theorem collect_commits_iff (s : Driver) (r1 r2 r3 : Option Data) (now : Nat) :
    collect_commits s r1 r2 r3 now ↔
      ∃ d1 d2 d3, r1 = some d1 ∧ r2 = some d2 ∧ r3 = some d3 := by
  unfold collect_commits
  cases r1 with
  | none => simp [_collect]
  | some d1 =>
    cases r2 with
    | none => simp [_collect]
    | some d2 =>
      cases r3 with
      | none => simp [_collect]
      | some d3 => simp [_collect, status_not_rejected]

theorem registrations_append (a b : List Event) :
    registrations (a ++ b) = registrations a + registrations b := by
  simp [registrations]

theorem registrations_measure (s : Driver) (c1 c2 c3 : Bool) (now : Nat) :
    registrations (_measure s c1 c2 c3 now).2 = 0 := by
  cases c1 <;> cases c2 <;> cases c3 <;> rfl

theorem registrations_collect (s : Driver) (r1 r2 r3 : Option Data) (now : Nat) :
    registrations (_collect s r1 r2 r3 now).2 = 0 := by
  cases r1 with
  | none => rfl
  | some d1 =>
    cases r2 with
    | none => rfl
    | some d2 =>
      cases r3 with
      | none => rfl
      | some d3 => simp [_collect, status_not_rejected, registrations]

theorem registrations_init_take (e : InitEnv) : registrations (init_take e).2 = 0 := by
  unfold init_take
  cases e.dev_RM <;> cases e.take_RM <;> cases e.dev_UD <;> cases e.take_UD <;>
    cases e.dev_LR <;> cases e.take_LR <;> rfl

theorem init_take_true_iff (e : InitEnv) :
    (init_take e).1 = true ↔
      e.dev_RM = true ∧ e.dev_UD = true ∧ e.dev_LR = true ∧
      e.take_RM = true ∧ e.take_UD = true ∧ e.take_LR = true := by
  unfold init_take
  cases e.dev_RM <;> cases e.take_RM <;> cases e.dev_UD <;> cases e.take_UD <;>
    cases e.dev_LR <;> cases e.take_LR <;> simp

/-- When a handle is missing or a lock is not obtained, `init` returns false at
line 118. -/
theorem init_no_lock (s : Driver) (e : InitEnv) (h : (init_take e).1 = false) :
    init s e = (false, s, (init_take e).2) := by
  simp [init, h]

/-- With handles and locks, `init` runs `_measure`, the delay and `_collect`,
releases the locks and tests `_last_sample_time_ms`. -/
theorem init_locked (s : Driver) (e : InitEnv) (h : (init_take e).1 = true) :
    init s e =
      if (_collect (_measure s e.cmd_RM e.cmd_UD e.cmd_LR e.t_measure).1
            e.rd_RM e.rd_UD e.rd_LR e.t_collect).1._last_sample_time_ms ≠ 0 then
        (true,
         (_collect (_measure s e.cmd_RM e.cmd_UD e.cmd_LR e.t_measure).1
            e.rd_RM e.rd_UD e.rd_LR e.t_collect).1,
         (init_take e).2 ++ (_measure s e.cmd_RM e.cmd_UD e.cmd_LR e.t_measure).2 ++
           [Event.delay 10] ++
           (_collect (_measure s e.cmd_RM e.cmd_UD e.cmd_LR e.t_measure).1
              e.rd_RM e.rd_UD e.rd_LR e.t_collect).2 ++ give_all ++
           [Event.register_timer_process])
      else
        (false,
         (_collect (_measure s e.cmd_RM e.cmd_UD e.cmd_LR e.t_measure).1
            e.rd_RM e.rd_UD e.rd_LR e.t_collect).1,
         (init_take e).2 ++ (_measure s e.cmd_RM e.cmd_UD e.cmd_LR e.t_measure).2 ++
           [Event.delay 10] ++
           (_collect (_measure s e.cmd_RM e.cmd_UD e.cmd_LR e.t_measure).1
              e.rd_RM e.rd_UD e.rd_LR e.t_collect).2 ++ give_all) := by
  unfold init
  simp only [h, Bool.not_true, Bool.false_eq_true, if_false]

/-- A failed read in the priming cycle leaves `_last_sample_time_ms` as it was
before `init`. -/
theorem init_collect_none_last (s : Driver) (e : InitEnv)
    (h : e.rd_RM = none ∨ e.rd_UD = none ∨ e.rd_LR = none) :
    (_collect (_measure s e.cmd_RM e.cmd_UD e.cmd_LR e.t_measure).1
      e.rd_RM e.rd_UD e.rd_LR e.t_collect).1._last_sample_time_ms
      = s._last_sample_time_ms := by
  rw [collect_none _ _ _ _ _ h, measure_state]

theorem not_all_some (r1 r2 r3 : Option Data)
    (h : ¬ ∃ d1 d2 d3, r1 = some d1 ∧ r2 = some d2 ∧ r3 = some d3) :
    r1 = none ∨ r2 = none ∨ r3 = none := by
  cases r1 with
  | none => exact Or.inl rfl
  | some d1 =>
    cases r2 with
    | none => exact Or.inr (Or.inl rfl)
    | some d2 =>
      cases r3 with
      | none => exact Or.inr (Or.inr rfl)
      | some d3 => exact absurd ⟨d1, d2, d3, rfl, rfl, rfl⟩ h

theorem sub32_of_le (a b : Nat) (ha : a < 2 ^ 32) (hb : b ≤ a) : sub32 a b = a - b := by
  unfold sub32
  omega

theorem call_collect_not_mem_measure (s : Driver) (c1 c2 c3 : Bool) (now : Nat) :
    Event.call_collect ∉ (_measure s c1 c2 c3 now).2 := by
  cases c1 <;> cases c2 <;> cases c3 <;> simp [_measure]

theorem call_collect_mem_collect (s : Driver) (r1 r2 r3 : Option Data) (now : Nat) :
    Event.call_collect ∈ (_collect s r1 r2 r3 now).2 := by
  cases r1 with
  | none => simp [_collect]
  | some d1 =>
    cases r2 with
    | none => simp [_collect]
    | some d2 =>
      cases r3 with
      | none => simp [_collect]
      | some d3 => simp [_collect, status_not_rejected]

/-- The branch of `_timer` taken when a lock is not obtained. -/
theorem timer_branch_skip (s : Driver) (e : TimerEnv)
    (h : e.take_RM = false ∨ e.take_UD = false ∨ e.take_LR = false) :
    (_timer s e).1 = s ∧ calls (_timer s e).2 = [] ∧ transfers (_timer s e).2 = [] := by
  unfold _timer
  cases h1 : e.take_RM <;> cases h2 : e.take_UD <;> cases h3 : e.take_LR <;>
    simp [calls, transfers, h1, h2, h3] at h ⊢

/-- The branch of `_timer` taken when the locks are held and no measurement is in
flight. -/
theorem timer_branch_measure (s : Driver) (e : TimerEnv)
    (hRM : e.take_RM = true) (hUD : e.take_UD = true) (hLR : e.take_LR = true)
    (hstart : s._measurement_started_ms = 0) :
    _timer s e =
      ((_measure s e.cmd_RM e.cmd_UD e.cmd_LR e.t_measure).1,
       [Event.take_nonblocking Chan.RM true, Event.take_nonblocking Chan.UD true,
        Event.take_nonblocking Chan.LR true] ++
       (_measure s e.cmd_RM e.cmd_UD e.cmd_LR e.t_measure).2 ++ give_all) := by
  simp [_timer, hRM, hUD, hLR, hstart]

/-- The branch of `_timer` taken when the locks are held, a measurement is in
flight and not more than 10 ms have elapsed. -/
theorem timer_branch_wait (s : Driver) (e : TimerEnv)
    (hRM : e.take_RM = true) (hUD : e.take_UD = true) (hLR : e.take_LR = true)
    (hstart : s._measurement_started_ms ≠ 0)
    (helapsed : ¬ sub32 e.t_check s._measurement_started_ms > 10) :
    _timer s e =
      (s, [Event.take_nonblocking Chan.RM true, Event.take_nonblocking Chan.UD true,
           Event.take_nonblocking Chan.LR true] ++ [Event.millis] ++ give_all) := by
  have hng : ¬ 10 < sub32 e.t_check s._measurement_started_ms := helapsed
  simp [_timer, hRM, hUD, hLR, hstart, hng]

theorem call_collect_mem_iff_calls (tr : List Event) :
    Event.call_collect ∈ tr ↔ Event.call_collect ∈ calls tr := by
  simp [calls]

theorem timer_calls_collect_iff (s : Driver) (e : TimerEnv) :
    Event.call_collect ∈ (_timer s e).2 ↔
      (e.take_RM = true ∧ e.take_UD = true ∧ e.take_LR = true ∧
        s._measurement_started_ms ≠ 0 ∧
        sub32 e.t_check s._measurement_started_ms > 10) := by
  rw [call_collect_mem_iff_calls]
  by_cases hl : e.take_RM = true ∧ e.take_UD = true ∧ e.take_LR = true
  · obtain ⟨h1, h2, h3⟩ := hl
    by_cases h0 : s._measurement_started_ms = 0
    · rw [timer_branch_measure s e h1 h2 h3 h0]
      simp only [calls_append, calls_measure]
      simp [calls, give_all, h0]
    · by_cases hel : sub32 e.t_check s._measurement_started_ms > 10
      · rw [timer_branch_collect s e h1 h2 h3 h0 hel]
        simp only [calls_append, calls_measure, calls_collect]
        simp [calls, give_all, h1, h2, h3, h0, hel]
      · rw [timer_branch_wait s e h1 h2 h3 h0 hel]
        simp [calls, give_all, hel]
  · have hf : e.take_RM = false ∨ e.take_UD = false ∨ e.take_LR = false := by
      cases h1 : e.take_RM <;> cases h2 : e.take_UD <;> cases h3 : e.take_LR <;>
        simp [h1, h2, h3] at hl ⊢
    rw [(timer_branch_skip s e hf).2.1]
    constructor
    · intro h
      simp at h
    · rintro ⟨h1, h2, h3, _⟩
      exact absurd ⟨h1, h2, h3⟩ hl

/-- One `_timer` invocation on a clock that does not go back keeps `run_inv`, does
not decrease `_last_sample_time_ms`, changes it only by a commit, and commits
only 10 ms or more after the previous value. -/
theorem timer_step (s : Driver) (e : TimerEnv) (t : Nat)
    (hinv : run_inv s t) (hc : e.clock_from t) :
    run_inv (_timer s e).1 e.t_measure ∧
    s._last_sample_time_ms ≤ (_timer s e).1._last_sample_time_ms ∧
    (timer_commits s e →
      (_timer s e).1._last_sample_time_ms = e.t_collect ∧
      s._last_sample_time_ms + 10 ≤ e.t_collect) ∧
    (¬ timer_commits s e →
      (_timer s e).1._last_sample_time_ms = s._last_sample_time_ms) := by
  obtain ⟨hlast, hstarted⟩ := hinv
  obtain ⟨h1, h2, h3, h4⟩ := hc
  have hkeep : run_inv s e.t_measure := by
    refine ⟨by omega, ?_⟩
    intro hne
    have := hstarted hne
    omega
  by_cases hcall : Event.call_collect ∈ (_timer s e).2
  · obtain ⟨hRM, hUD, hLR, h0, hel⟩ := (timer_calls_collect_iff s e).1 hcall
    have hs := hstarted h0
    rw [sub32_of_le _ _ (by omega) (by omega)] at hel
    have hst := congrArg Prod.fst (timer_branch_collect s e hRM hUD hLR h0
      (by rw [sub32_of_le _ _ (by omega) (by omega)]; exact hel))
    simp only at hst
    rw [hst, measure_state]
    by_cases hall : ∃ d1 d2 d3, e.rd_RM = some d1 ∧ e.rd_UD = some d2 ∧ e.rd_LR = some d3
    · have hcm : timer_commits s e := ⟨hcall, (collect_commits_iff _ _ _ _ _).2 hall⟩
      obtain ⟨d1, d2, d3, e1, e2, e3⟩ := hall
      rw [e1, e2, e3, collect_some]
      refine ⟨⟨?_, ?_⟩, ?_, ?_, ?_⟩
      · show e.t_collect ≤ e.t_measure
        exact h3
      · intro hne
        show e.t_collect ≤ (if (e.cmd_RM && e.cmd_UD && e.cmd_LR) = true then e.t_measure else 0) ∧
          (if (e.cmd_RM && e.cmd_UD && e.cmd_LR) = true then e.t_measure else 0) ≤ e.t_measure
        have hne2 : (if (e.cmd_RM && e.cmd_UD && e.cmd_LR) = true then e.t_measure else 0) ≠ 0 := hne
        split at hne2
        · rw [if_pos (by assumption)]
          omega
        · exact absurd rfl hne2
      · show s._last_sample_time_ms ≤ e.t_collect
        omega
      · intro _
        refine ⟨rfl, ?_⟩
        omega
      · intro hn
        exact absurd hcm hn
    · have hnc : ¬ timer_commits s e := fun h => hall ((collect_commits_iff _ _ _ _ _).1 h.2)
      rw [collect_none _ _ _ _ _ (not_all_some _ _ _ hall)]
      refine ⟨⟨?_, ?_⟩, ?_, ?_, ?_⟩
      · show s._last_sample_time_ms ≤ e.t_measure
        omega
      · intro hne
        show s._last_sample_time_ms ≤ (if (e.cmd_RM && e.cmd_UD && e.cmd_LR) = true then e.t_measure else 0) ∧
          (if (e.cmd_RM && e.cmd_UD && e.cmd_LR) = true then e.t_measure else 0) ≤ e.t_measure
        have hne2 : (if (e.cmd_RM && e.cmd_UD && e.cmd_LR) = true then e.t_measure else 0) ≠ 0 := hne
        split at hne2
        · rw [if_pos (by assumption)]
          omega
        · exact absurd rfl hne2
      · exact Nat.le_refl _
      · intro h
        exact absurd h hnc
      · intro _
        rfl
  · have hnc : ¬ timer_commits s e := fun h => hcall h.1
    have hstate : (_timer s e).1 = s ∨
        (s._measurement_started_ms = 0 ∧
          (_timer s e).1 = (_measure s e.cmd_RM e.cmd_UD e.cmd_LR e.t_measure).1) := by
      by_cases hl : e.take_RM = true ∧ e.take_UD = true ∧ e.take_LR = true
      · obtain ⟨hRM, hUD, hLR⟩ := hl
        by_cases h0 : s._measurement_started_ms = 0
        · right
          rw [timer_branch_measure s e hRM hUD hLR h0]
          exact ⟨h0, rfl⟩
        · left
          by_cases hel : sub32 e.t_check s._measurement_started_ms > 10
          · exact absurd ((timer_calls_collect_iff s e).2 ⟨hRM, hUD, hLR, h0, hel⟩) hcall
          · rw [timer_branch_wait s e hRM hUD hLR h0 hel]
      · left
        have hf : e.take_RM = false ∨ e.take_UD = false ∨ e.take_LR = false := by
          cases h1 : e.take_RM <;> cases h2 : e.take_UD <;> cases h3 : e.take_LR <;>
            simp [h1, h2, h3] at hl ⊢
        exact (timer_branch_skip s e hf).1
    rcases hstate with hst | ⟨h0, hst⟩
    · rw [hst]
      exact ⟨hkeep, Nat.le_refl _, fun h => absurd h hnc, fun _ => rfl⟩
    · rw [hst, measure_state]
      refine ⟨⟨?_, ?_⟩, Nat.le_refl _, fun h => absurd h hnc, fun _ => rfl⟩
      · show s._last_sample_time_ms ≤ e.t_measure
        omega
      · intro hne
        show s._last_sample_time_ms ≤ (if (e.cmd_RM && e.cmd_UD && e.cmd_LR) = true then e.t_measure else 0) ∧
          (if (e.cmd_RM && e.cmd_UD && e.cmd_LR) = true then e.t_measure else 0) ≤ e.t_measure
        have hne2 : (if (e.cmd_RM && e.cmd_UD && e.cmd_LR) = true then e.t_measure else 0) ≠ 0 := hne
        split at hne2
        · rw [if_pos (by assumption)]
          omega
        · exact absurd rfl hne2

theorem collect_start_zero (s : Driver) (r1 r2 r3 : Option Data) (now : Nat) :
    (_collect s r1 r2 r3 now).1._measurement_started_ms = 0 := by
  by_cases hall : ∃ d1 d2 d3, r1 = some d1 ∧ r2 = some d2 ∧ r3 = some d3
  · obtain ⟨d1, d2, d3, e1, e2, e3⟩ := hall
    rw [e1, e2, e3, collect_some]
  · rw [collect_none _ _ _ _ _ (not_all_some _ _ _ hall)]

theorem collect_last_cases (s : Driver) (r1 r2 r3 : Option Data) (now : Nat) :
    (_collect s r1 r2 r3 now).1._last_sample_time_ms = now ∨
    (_collect s r1 r2 r3 now).1._last_sample_time_ms = s._last_sample_time_ms := by
  by_cases hall : ∃ d1 d2 d3, r1 = some d1 ∧ r2 = some d2 ∧ r3 = some d3
  · obtain ⟨d1, d2, d3, e1, e2, e3⟩ := hall
    rw [e1, e2, e3, collect_some]
    exact Or.inl rfl
  · rw [collect_none _ _ _ _ _ (not_all_some _ _ _ hall)]
    exact Or.inr rfl

/-- After a successful `init` on a clock that does not go back, the state
satisfies `run_inv` at the clock reading of its `_collect`. -/
theorem init_run_inv (s : Driver) (e : InitEnv) (hinit : (init s e).1 = true)
    (hpast : s._last_sample_time_ms ≤ e.t_measure) (hclk : e.t_measure ≤ e.t_collect) :
    run_inv (init s e).2.1 e.t_collect := by
  have ht : (init_take e).1 = true := by
    cases hb : (init_take e).1 with
    | true => rfl
    | false =>
      rw [init_no_lock s e hb] at hinit
      simp at hinit
  have hst : (init s e).2.1 =
      (_collect (_measure s e.cmd_RM e.cmd_UD e.cmd_LR e.t_measure).1
        e.rd_RM e.rd_UD e.rd_LR e.t_collect).1 := by
    rw [init_locked s e ht]
    split <;> rfl
  rw [hst]
  refine ⟨?_, ?_⟩
  · rcases collect_last_cases (_measure s e.cmd_RM e.cmd_UD e.cmd_LR e.t_measure).1
      e.rd_RM e.rd_UD e.rd_LR e.t_collect with h | h
    · rw [h]
    · rw [h, measure_state]
      show s._last_sample_time_ms ≤ e.t_collect
      omega
  · intro hne
    exact absurd (collect_start_zero _ _ _ _ _) hne

/-- Along a sequence of `_timer` invocations on a clock that does not go back,
started in a state satisfying `run_inv`, `_last_sample_time_ms` never decreases
and each commit is at least 10 ms after the previous value of
`_last_sample_time_ms`. -/
theorem run_chains (es : List TimerEnv) :
    ∀ (s : Driver) (t : Nat), run_inv s t → clock_nondecreasing t es →
      List.Chain (fun a b => a ≤ b) s._last_sample_time_ms (last_sample_times s es) ∧
      List.Chain (fun a b => a + 10 ≤ b) s._last_sample_time_ms (commit_times s es) := by
  induction es with
  | nil =>
    intro s t _ _
    exact ⟨List.Chain.nil, List.Chain.nil⟩
  | cons e es ih =>
    intro s t hinv hclk
    obtain ⟨hstep_inv, hmono, hcommit, hkeep⟩ := timer_step s e t hinv hclk.1
    obtain ⟨ih1, ih2⟩ := ih (_timer s e).1 e.t_measure hstep_inv hclk.2
    refine ⟨List.Chain.cons hmono ih1, ?_⟩
    unfold commit_times
    by_cases hc : timer_commits s e
    · rw [if_pos hc]
      obtain ⟨heq, hsp⟩ := hcommit hc
      rw [heq] at ih2
      exact List.Chain.cons hsp ih2
    · rw [if_neg hc]
      rw [hkeep hc] at ih2
      exact ih2

theorem pressure_RM_of_code (d : Data) :
    pressure_RM_of (raw_p d) = spec_pressure (5 * spec_k) 0 (code_p d) := by
  have h := raw_p_eq d
  have hlt : raw_p d < 2 ^ 15 := by omega
  unfold pressure_RM_of spec_pressure B_min B_max temp_bits_max inh2o_to_pa spec_k code_p
  rw [int16_val_of_lt _ hlt, h, Int.cast_natCast]

theorem pressure_UD_of_code (d : Data) :
    pressure_UD_of (raw_p d) = spec_pressure (4 * spec_k) (-2 * spec_k) (code_p d) := by
  have h := raw_p_eq d
  have hlt : raw_p d < 2 ^ 15 := by omega
  unfold pressure_UD_of spec_pressure B_min B_max temp_bits_max inh2o_to_pa spec_k code_p
  rw [int16_val_of_lt _ hlt, h, Int.cast_natCast]

theorem temperature_of_code (d : Data) (hwf : d.wf) :
    temperature_of (raw_T d) = spec_temperature (code_T d) := by
  have h := raw_T_eq d hwf
  obtain ⟨_, _, h2, h3⟩ := hwf
  have hlt : raw_T d < 2 ^ 15 := by omega
  unfold temperature_of spec_temperature code_T
  rw [int16_val_of_lt _ hlt, h, Int.cast_natCast]

theorem code_T_le (d : Data) (hwf : d.wf) : code_T d ≤ 2047 := by
  obtain ⟨_, _, h2, h3⟩ := hwf
  unfold code_T
  omega

theorem spec_pressure_at_B_min (span offset : ℚ) :
    spec_pressure span offset (0.05 * 16383) = offset := by
  unfold spec_pressure
  simp

theorem spec_pressure_at_B_max (span offset : ℚ) :
    spec_pressure span offset (0.95 * 16383) = offset + span := by
  unfold spec_pressure
  have h : (0.95 * 16383 - 0.05 * 16383 : ℚ) ≠ 0 := by norm_num
  rw [mul_comm, mul_div_assoc, div_self h, mul_one, add_comm]

theorem spec_temperature_range (n : Nat) (h : n ≤ 2047) :
    -50 ≤ spec_temperature n ∧ spec_temperature n ≤ 150 := by
  unfold spec_temperature
  have h0 : (0 : ℚ) ≤ (n : ℚ) := Nat.cast_nonneg n
  have h1 : (n : ℚ) ≤ 2047 := by exact_mod_cast h
  constructor
  · have : (0 : ℚ) ≤ 200 * (n : ℚ) / 2047 := by positivity
    linarith
  · have : 200 * (n : ℚ) / 2047 ≤ 200 := by
      rw [div_le_iff₀ (by norm_num)]
      linarith
    linarith

theorem held_after_append (a b : List Event) :
    ∀ held : List Chan, held_after held (a ++ b) = held_after (held_after held a) b := by
  induction a with
  | nil =>
    intro held
    rfl
  | cons ev a ih =>
    intro held
    cases ev with
    | take c t ok => cases ok <;> simp [held_after, ih]
    | take_nonblocking c ok => cases ok <;> simp [held_after, ih]
    | _ => simp [held_after, ih]

theorem held_after_measure (s : Driver) (c1 c2 c3 : Bool) (now : Nat) (held : List Chan) :
    held_after held (_measure s c1 c2 c3 now).2 = held := by
  cases c1 <;> cases c2 <;> cases c3 <;> rfl

theorem held_after_collect (s : Driver) (r1 r2 r3 : Option Data) (now : Nat)
    (held : List Chan) : held_after held (_collect s r1 r2 r3 now).2 = held := by
  cases r1 with
  | none => rfl
  | some d1 =>
    cases r2 with
    | none => rfl
    | some d2 =>
      cases r3 with
      | none => rfl
      | some d3 => simp [_collect, status_not_rejected, held_after]

/-- The locks `_timer` still holds when it returns: none when the first lock is
not obtained or all three are, otherwise those obtained before the failure. -/
theorem timer_held (s : Driver) (e : TimerEnv) :
    held_after [] (_timer s e).2 =
      if e.take_RM = true ∧ e.take_UD = false then [Chan.RM]
      else if e.take_RM = true ∧ e.take_UD = true ∧ e.take_LR = false then
        [Chan.UD, Chan.RM]
      else [] := by
  by_cases hl : e.take_RM = true ∧ e.take_UD = true ∧ e.take_LR = true
  · obtain ⟨h1, h2, h3⟩ := hl
    rw [if_neg (by simp [h2]), if_neg (by simp [h3])]
    by_cases h0 : s._measurement_started_ms = 0
    · rw [timer_branch_measure s e h1 h2 h3 h0]
      simp only [held_after_append, held_after_measure]
      rfl
    · by_cases hel : sub32 e.t_check s._measurement_started_ms > 10
      · rw [timer_branch_collect s e h1 h2 h3 h0 hel]
        simp only [held_after_append, held_after_measure, held_after_collect]
        rfl
      · rw [timer_branch_wait s e h1 h2 h3 h0 hel]
        rfl
  · unfold _timer
    cases h1 : e.take_RM <;> cases h2 : e.take_UD <;> cases h3 : e.take_LR <;>
      simp [h1, h2, h3, held_after] at hl ⊢

/-- The decoding of one response of four bytes: the values of `p_XX` and `T_XX`
after lines 177-180, their ranges, their values as converted to `float`, and
the sign of the 16-bit intermediates. -/
theorem raw_codes_of_response (d : Data) (h : d.wf) :
    raw_p d = (d.b0 * 256 + d.b1) % 16384 ∧ raw_p d < 16384 ∧
    raw_T d = (d.b2 * 256 + d.b3) / 32 ∧ raw_T d < 2048 ∧
    int16_val (raw_p d) = (((d.b0 * 256 + d.b1) % 16384 : Nat) : Int) ∧
    int16_val (raw_T d) = (((d.b2 * 256 + d.b3) / 32 : Nat) : Int) ∧
    (128 ≤ d.b0 → int16_val (p_word d) < 0) ∧
    (128 ≤ d.b2 → int16_val (T_word d) < 0) := by
  have hp := raw_p_eq d
  have hT := raw_T_eq d h
  obtain ⟨h0, h1, h2, h3⟩ := h
  have hpl : raw_p d < 16384 := by omega
  have hTl : raw_T d < 2048 := by omega
  refine ⟨hp, hpl, hT, hTl, ?_, ?_, ?_, ?_⟩
  · rw [int16_val_of_lt _ (by omega), hp]
  · rw [int16_val_of_lt _ (by omega), hT]
  · intro hb
    unfold int16_val p_word to_int16
    rw [Nat.shiftLeft_eq]
    split <;> omega
  · intro hb
    unfold int16_val T_word to_int16
    rw [Nat.shiftLeft_eq]
    split <;> omega


theorem pressure_RM_of_raw (d : Data) :
    pressure_RM_of (raw_p d) =
      ((((d.b0 * 256 + d.b1) % 16384 : Nat) : ℚ) - B_min) * (5 * inh2o_to_pa)
        / (B_max - B_min) + 0 := by
  have h := raw_p_eq d
  have hlt : raw_p d < 2 ^ 15 := by omega
  unfold pressure_RM_of
  rw [int16_val_of_lt _ hlt, h, Int.cast_natCast]

theorem pressure_UD_of_raw (d : Data) :
    pressure_UD_of (raw_p d) =
      ((((d.b0 * 256 + d.b1) % 16384 : Nat) : ℚ) - B_min) * (4 * inh2o_to_pa)
        / (B_max - B_min) + (-2 * inh2o_to_pa) := by
  have h := raw_p_eq d
  have hlt : raw_p d < 2 ^ 15 := by omega
  unfold pressure_UD_of
  rw [int16_val_of_lt _ hlt, h, Int.cast_natCast]

theorem temperature_of_raw (d : Data) (hwf : d.wf) :
    temperature_of (raw_T d) =
      (200 * ((((d.b2 * 256 + d.b3) / 32 : Nat) : ℚ))) / 2047 - 50 := by
  have h := raw_T_eq d hwf
  obtain ⟨_, _, h2, h3⟩ := hwf
  have hlt : raw_T d < 2 ^ 15 := by omega
  unfold temperature_of
  rw [int16_val_of_lt _ hlt, h, Int.cast_natCast]

/-- Started with `_last_sample_time_ms = 0`, `init` returns true only after a
commit by its `_collect`, and returns false without registration when that
`_collect` does not commit or a handle or lock is missing. -/
theorem init_from_zero (s : Driver) (e : InitEnv)
    (h0 : s._last_sample_time_ms = 0) :
    ((init s e).1 = true →
      collect_commits (_measure s e.cmd_RM e.cmd_UD e.cmd_LR e.t_measure).1
        e.rd_RM e.rd_UD e.rd_LR e.t_collect ∧
      (∃ dRM dUD dLR, e.rd_RM = some dRM ∧ e.rd_UD = some dUD ∧ e.rd_LR = some dLR ∧
        committed (init s e).2.1 dRM dUD dLR e.t_collect) ∧
      registrations (init s e).2.2 = 1) ∧
    ((¬ collect_commits (_measure s e.cmd_RM e.cmd_UD e.cmd_LR e.t_measure).1
          e.rd_RM e.rd_UD e.rd_LR e.t_collect ∨
        e.dev_RM = false ∨ e.dev_UD = false ∨ e.dev_LR = false ∨
        e.take_RM = false ∨ e.take_UD = false ∨ e.take_LR = false) →
      (init s e).1 = false ∧ registrations (init s e).2.2 = 0) := by
  have hnone : (e.rd_RM = none ∨ e.rd_UD = none ∨ e.rd_LR = none) →
      (init s e).1 = false ∧ registrations (init s e).2.2 = 0 := by
    intro hr
    by_cases ht : (init_take e).1 = true
    · have hl := init_collect_none_last s e hr
      rw [h0] at hl
      rw [init_locked s e ht, if_neg (by simp [hl])]
      refine ⟨rfl, ?_⟩
      simp only [registrations_append, registrations_init_take, registrations_measure,
        registrations_collect]
      rfl
    · have ht2 : (init_take e).1 = false := by simpa using ht
      rw [init_no_lock s e ht2]
      exact ⟨rfl, registrations_init_take e⟩
  have hlock : (init_take e).1 = false →
      (init s e).1 = false ∧ registrations (init s e).2.2 = 0 := by
    intro ht
    rw [init_no_lock s e ht]
    exact ⟨rfl, registrations_init_take e⟩
  constructor
  · intro htrue
    by_cases hall : ∃ d1 d2 d3, e.rd_RM = some d1 ∧ e.rd_UD = some d2 ∧ e.rd_LR = some d3
    · refine ⟨(collect_commits_iff _ _ _ _ _).2 hall, ?_, ?_⟩
      · obtain ⟨d1, d2, d3, h1, h2, h3⟩ := hall
        refine ⟨d1, d2, d3, h1, h2, h3, ?_⟩
        rcases init_state_cases s e with hs | hs
        · by_cases ht : (init_take e).1 = true
          · rw [init_locked s e ht] at htrue ⊢
            split at htrue
            · rw [if_pos (by assumption), h1, h2, h3]
              exact committed_collect_some _ _ _ _ _
            · simp at htrue
          · have ht2 : (init_take e).1 = false := by simpa using ht
            rw [(hlock ht2).1] at htrue
            simp at htrue
        · rw [hs, h1, h2, h3]
          exact committed_collect_some _ _ _ _ _
      · by_cases ht : (init_take e).1 = true
        · rw [init_locked s e ht] at htrue ⊢
          split at htrue
          · rw [if_pos (by assumption)]
            simp only [registrations_append, registrations_init_take, registrations_measure,
              registrations_collect]
            rfl
          · simp at htrue
        · have ht2 : (init_take e).1 = false := by simpa using ht
          rw [(hlock ht2).1] at htrue
          simp at htrue
    · have := (hnone (not_all_some _ _ _ hall)).1
      rw [this] at htrue
      simp at htrue
  · intro h
    rcases h with h | h
    · rw [collect_commits_iff] at h
      exact hnone (not_all_some _ _ _ h)
    · apply hlock
      have hiff := init_take_true_iff e
      cases hb : (init_take e).1 with
      | false => rfl
      | true =>
        obtain ⟨a1, a2, a3, a4, a5, a6⟩ := hiff.1 hb
        rw [a1, a2, a3, a4, a5, a6] at h
        simp at h

/-- For every starting state, `init` returns false without registration when a
handle is missing or a lock is not acquired. -/
theorem init_lock_failure (s : Driver) (e : InitEnv)
    (h : e.dev_RM = false ∨ e.dev_UD = false ∨ e.dev_LR = false ∨
      e.take_RM = false ∨ e.take_UD = false ∨ e.take_LR = false) :
    (init s e).1 = false ∧ registrations (init s e).2.2 = 0 := by
  have ht : (init_take e).1 = false := by
    cases hb : (init_take e).1 with
    | false => rfl
    | true =>
      obtain ⟨a1, a2, a3, a4, a5, a6⟩ := (init_take_true_iff e).1 hb
      rw [a1, a2, a3, a4, a5, a6] at h
      simp at h
  rw [init_no_lock s e ht]
  exact ⟨rfl, registrations_init_take e⟩

/-- For every starting state, `init` returns true exactly when the handles and
locks were obtained and `_last_sample_time_ms` is non-zero after its `_collect`,
and it registers the callback once when it returns true and never otherwise. -/
theorem init_result (s : Driver) (e : InitEnv) :
    ((init s e).1 = true ↔
      ((init_take e).1 = true ∧
        (_collect (_measure s e.cmd_RM e.cmd_UD e.cmd_LR e.t_measure).1
          e.rd_RM e.rd_UD e.rd_LR e.t_collect).1._last_sample_time_ms ≠ 0)) ∧
    ((init s e).1 = true → registrations (init s e).2.2 = 1) ∧
    ((init s e).1 = false → registrations (init s e).2.2 = 0) := by
  by_cases ht : (init_take e).1 = true
  · rw [init_locked s e ht]
    by_cases hl : (_collect (_measure s e.cmd_RM e.cmd_UD e.cmd_LR e.t_measure).1
        e.rd_RM e.rd_UD e.rd_LR e.t_collect).1._last_sample_time_ms ≠ 0
    · rw [if_pos hl]
      refine ⟨⟨fun _ => ⟨ht, hl⟩, fun _ => rfl⟩, ?_, ?_⟩
      · intro _
        simp only [registrations_append, registrations_init_take, registrations_measure,
          registrations_collect]
        rfl
      · intro h
        simp at h
    · rw [if_neg hl]
      refine ⟨⟨?_, fun h => absurd h.2 hl⟩, ?_, ?_⟩
      · intro h
        simp at h
      · intro h
        simp at h
      · intro _
        simp only [registrations_append, registrations_init_take, registrations_measure,
          registrations_collect]
        rfl
  · have ht2 : (init_take e).1 = false := by simpa using ht
    rw [init_no_lock s e ht2]
    refine ⟨⟨?_, fun h => absurd h.1 ht⟩, ?_, ?_⟩
    · intro h
      simp at h
    · intro h
      simp at h
    · intro _
      exact registrations_init_take e

/-- After a successful `init`, the state satisfies `run_inv` at the clock reading of
its `_collect` when that `_collect` committed or the earlier
`_last_sample_time_ms` was not ahead of that reading. -/
theorem init_run_inv_of (s : Driver) (e : InitEnv) (hinit : (init s e).1 = true)
    (h : s._last_sample_time_ms ≤ e.t_collect ∨
      collect_commits (_measure s e.cmd_RM e.cmd_UD e.cmd_LR e.t_measure).1
        e.rd_RM e.rd_UD e.rd_LR e.t_collect) :
    run_inv (init s e).2.1 e.t_collect := by
  have ht : (init_take e).1 = true := ((init_result s e).1.1 hinit).1
  have hst : (init s e).2.1 =
      (_collect (_measure s e.cmd_RM e.cmd_UD e.cmd_LR e.t_measure).1
        e.rd_RM e.rd_UD e.rd_LR e.t_collect).1 := by
    rw [init_locked s e ht]
    split <;> rfl
  rw [hst]
  refine ⟨?_, fun hne => absurd (collect_start_zero _ _ _ _ _) hne⟩
  rcases h with h | h
  · rcases collect_last_cases (_measure s e.cmd_RM e.cmd_UD e.cmd_LR e.t_measure).1
      e.rd_RM e.rd_UD e.rd_LR e.t_collect with hc | hc
    · rw [hc]
    · rw [hc, measure_state]
      exact h
  · obtain ⟨d1, d2, d3, e1, e2, e3⟩ := (collect_commits_iff _ _ _ _ _).1 h
    rw [e1, e2, e3, collect_some]

/-- When the `_collect` run by `init` commits, `_last_sample_time_ms` after `init`
is the clock reading of that commit. -/
theorem init_commit_last (s : Driver) (e : InitEnv) (hinit : (init s e).1 = true)
    (h : collect_commits (_measure s e.cmd_RM e.cmd_UD e.cmd_LR e.t_measure).1
      e.rd_RM e.rd_UD e.rd_LR e.t_collect) :
    (init s e).2.1._last_sample_time_ms = e.t_collect := by
  have ht : (init_take e).1 = true := ((init_result s e).1.1 hinit).1
  have hst : (init s e).2.1 =
      (_collect (_measure s e.cmd_RM e.cmd_UD e.cmd_LR e.t_measure).1
        e.rd_RM e.rd_UD e.rd_LR e.t_collect).1 := by
    rw [init_locked s e ht]
    split <;> rfl
  obtain ⟨d1, d2, d3, e1, e2, e3⟩ := (collect_commits_iff _ _ _ _ _).1 h
  rw [hst, e1, e2, e3, collect_some]

/-- A `_timer` invocation that commits, started in any state, ends in a state
satisfying `run_inv` whose `_last_sample_time_ms` is the time of the commit. -/
theorem timer_commit_inv (s : Driver) (e : TimerEnv) (hord : e.t_collect ≤ e.t_measure)
    (hc : timer_commits s e) :
    run_inv (_timer s e).1 e.t_measure ∧
    (_timer s e).1._last_sample_time_ms = e.t_collect := by
  obtain ⟨hcall, hcm⟩ := hc
  obtain ⟨hRM, hUD, hLR, h0, hel⟩ := (timer_calls_collect_iff s e).1 hcall
  obtain ⟨d1, d2, d3, e1, e2, e3⟩ := (collect_commits_iff _ _ _ _ _).1 hcm
  have hst := congrArg Prod.fst (timer_branch_collect s e hRM hUD hLR h0 hel)
  simp only at hst
  rw [hst, measure_state, e1, e2, e3, collect_some]
  refine ⟨⟨hord, ?_⟩, rfl⟩
  intro hne
  show e.t_collect ≤ (if (e.cmd_RM && e.cmd_UD && e.cmd_LR) = true then e.t_measure else 0) ∧
    (if (e.cmd_RM && e.cmd_UD && e.cmd_LR) = true then e.t_measure else 0) ≤ e.t_measure
  have hne2 : (if (e.cmd_RM && e.cmd_UD && e.cmd_LR) = true then e.t_measure else 0) ≠ 0 := hne
  split at hne2
  · rw [if_pos (by assumption)]
    exact ⟨hord, Nat.le_refl _⟩
  · exact absurd rfl hne2

/-- Along a sequence of `_timer` invocations on a clock that does not go back,
started in any state, each commit is at least 10 ms after the previous commit. -/
theorem commit_times_spaced (es : List TimerEnv) :
    ∀ (s : Driver) (t : Nat), clock_nondecreasing t es →
      List.Chain' (fun a b => a + 10 ≤ b) (commit_times s es) := by
  induction es with
  | nil =>
    intro s t _
    exact List.chain'_nil
  | cons e es ih =>
    intro s t hclk
    unfold commit_times
    by_cases hc : timer_commits s e
    · rw [if_pos hc]
      obtain ⟨hinv, hlast⟩ := timer_commit_inv s e hclk.1.2.2.1 hc
      have hch := (run_chains es (_timer s e).1 e.t_measure hinv hclk.2).2
      rw [hlast] at hch
      exact hch
    · rw [if_neg hc]
      exact ih (_timer s e).1 e.t_measure hclk.2

/-! ## Theorems -/

/-- C1 (the code departs from the claim): a response of sensor RM whose status
bits are `0b10` (old data), read successfully together with two valid responses,
is not rejected by `_collect`: run on the zero-initialised state at clock value
1000, it sets `_last_sample_time_ms` to 1000, so the sample is not left unchanged. -/
theorem stale_status_is_committed :
    status_bits ⟨0x80, 0, 0, 0⟩ = 2 ∧
    (_collect fresh (some ⟨0x80, 0, 0, 0⟩) (some ⟨0, 0, 0, 0⟩) (some ⟨0, 0, 0, 0⟩) 1000).1._last_sample_time_ms
      = 1000 ∧
    fresh._last_sample_time_ms = 0 ∧
    ¬ same_sample fresh
      (_collect fresh (some ⟨0x80, 0, 0, 0⟩) (some ⟨0, 0, 0, 0⟩) (some ⟨0, 0, 0, 0⟩) 1000).1 := by
  refine ⟨by decide, by decide, by decide, ?_⟩
  intro h
  have h7 := h.2.2.2.2.2.2
  revert h7
  decide

/-- C2: with the enable flag set, each pressure accessor returns 0 and clears
`_healthy` when `now - _last_sample_time_ms > 100` in 32-bit unsigned arithmetic,
and otherwise returns the cached pressure of its channel and sets `_healthy`;
no other member changes. -/
theorem get_pressure_stale_or_fresh (s : Driver) (now : Nat) (hen : s._enable ≠ 0) :
    (sub32 now s._last_sample_time_ms > 100 →
      get_pressure_RM s now = (0, { s with _healthy := false }) ∧
      get_pressure_UD s now = (0, { s with _healthy := false }) ∧
      get_pressure_LR s now = (0, { s with _healthy := false })) ∧
    (¬ sub32 now s._last_sample_time_ms > 100 →
      get_pressure_RM s now = (s._pressure_RM, { s with _healthy := true }) ∧
      get_pressure_UD s now = (s._pressure_UD, { s with _healthy := true }) ∧
      get_pressure_LR s now = (s._pressure_LR, { s with _healthy := true })) := by
  have he : enabled s = true := by simp [enabled, hen]
  constructor
  · intro h
    simp [get_pressure_RM, get_pressure_UD, get_pressure_LR, get_pressure, he, h]
  · intro h
    simp [get_pressure_RM, get_pressure_UD, get_pressure_LR, get_pressure, he, h]

/-- Witness of C2 on the state `sampled` (last sample at 1000): stale at time 1101,
fresh at time 1100. -/
theorem get_pressure_stale_or_fresh_witness :
    (get_pressure_RM sampled 1101 = (0, { sampled with _healthy := false }) ∧
      get_pressure_UD sampled 1101 = (0, { sampled with _healthy := false }) ∧
      get_pressure_LR sampled 1101 = (0, { sampled with _healthy := false })) ∧
    (get_pressure_RM sampled 1100 = (sampled._pressure_RM, { sampled with _healthy := true }) ∧
      get_pressure_UD sampled 1100 = (sampled._pressure_UD, { sampled with _healthy := true }) ∧
      get_pressure_LR sampled 1100 = (sampled._pressure_LR, { sampled with _healthy := true })) :=
  ⟨(get_pressure_stale_or_fresh sampled 1101 (by decide)).1 (by decide),
   (get_pressure_stale_or_fresh sampled 1100 (by decide)).2 (by decide)⟩

/-- C3 as stated fails: with the three locks obtained, a measurement in flight
since time 1000 and the clock at 1010 (elapsed exactly 10, which is at least 10),
`_timer` performs neither `_collect` nor `_measure`. -/
theorem timer_elapsed_ten_no_collect :
    (timer_ok 1010).take_RM = true ∧ (timer_ok 1010).take_UD = true ∧
    (timer_ok 1010).take_LR = true ∧ sampled._measurement_started_ms ≠ 0 ∧
    10 ≤ sub32 (timer_ok 1010).t_check sampled._measurement_started_ms ∧
    calls (_timer sampled (timer_ok 1010)).2 = [] := by
  decide

/-- C3 amended: when the three locks are obtained, a measurement is in flight and
`now - _measurement_started_ms` (32-bit unsigned) is greater than 10, `_timer`
performs exactly one `_collect` followed by exactly one `_measure`: these are the
only two calls in its trace, in that order, and the resulting state is that of
`_measure` run on the state produced by `_collect`. -/
theorem timer_collects_then_measures (s : Driver) (e : TimerEnv)
    (hRM : e.take_RM = true) (hUD : e.take_UD = true) (hLR : e.take_LR = true)
    (hstart : s._measurement_started_ms ≠ 0)
    (helapsed : sub32 e.t_check s._measurement_started_ms > 10) :
    calls (_timer s e).2 = [Event.call_collect, Event.call_measure] ∧
    (_timer s e).1 =
      (_measure (_collect s e.rd_RM e.rd_UD e.rd_LR e.t_collect).1
        e.cmd_RM e.cmd_UD e.cmd_LR e.t_measure).1 := by
  rw [timer_branch_collect s e hRM hUD hLR hstart helapsed]
  refine ⟨?_, rfl⟩
  simp only [calls_append, calls_measure, calls_collect]
  rfl

/-- Witness of the amended C3: the state `sampled` (measurement started at 1000)
and a callback at time 1011 with every lock and transfer succeeding. -/
theorem timer_collects_then_measures_witness :
    calls (_timer sampled (timer_ok 1011)).2 = [Event.call_collect, Event.call_measure] ∧
    (_timer sampled (timer_ok 1011)).1 =
      (_measure (_collect sampled (timer_ok 1011).rd_RM (timer_ok 1011).rd_UD
          (timer_ok 1011).rd_LR (timer_ok 1011).t_collect).1
        (timer_ok 1011).cmd_RM (timer_ok 1011).cmd_UD (timer_ok 1011).cmd_LR
        (timer_ok 1011).t_measure).1 :=
  timer_collects_then_measures sampled (timer_ok 1011) (by decide) (by decide) (by decide)
    (by decide) (by decide)

/-- C4: when a measurement is in flight and `now - _measurement_started_ms`
(32-bit unsigned) is less than 10, `_timer` calls neither `_collect` nor
`_measure` and makes no bus transfer, whatever the lock outcomes: the six cached
values and `_last_sample_time_ms` are unchanged and `_measurement_started_ms`
keeps its non-zero value (the whole state is unchanged). -/
theorem timer_not_ready (s : Driver) (e : TimerEnv)
    (hstart : s._measurement_started_ms ≠ 0)
    (helapsed : sub32 e.t_check s._measurement_started_ms < 10) :
    calls (_timer s e).2 = [] ∧ transfers (_timer s e).2 = [] ∧
    same_sample s (_timer s e).1 ∧
    (_timer s e).1._measurement_started_ms = s._measurement_started_ms ∧
    (_timer s e).1._measurement_started_ms ≠ 0 ∧
    (_timer s e).1 = s := by
  have hng : ¬ 10 < sub32 e.t_check s._measurement_started_ms := by omega
  have hst : (_timer s e).1 = s := by
    unfold _timer
    cases e.take_RM <;> cases e.take_UD <;> cases e.take_LR <;> simp [hstart, hng]
  have htr : calls (_timer s e).2 = [] ∧ transfers (_timer s e).2 = [] := by
    unfold _timer
    cases e.take_RM <;> cases e.take_UD <;> cases e.take_LR <;>
      simp [hstart, hng, calls, transfers, give_all]
  refine ⟨htr.1, htr.2, ?_, ?_, ?_, hst⟩
  · rw [hst]; simp [same_sample]
  · rw [hst]
  · rw [hst]; exact hstart

/-- Witness of C4: the state `sampled` (measurement started at 1000) and a
callback at time 1009, every lock obtained. -/
theorem timer_not_ready_witness :
    calls (_timer sampled (timer_ok 1009)).2 = [] ∧
    transfers (_timer sampled (timer_ok 1009)).2 = [] ∧
    same_sample sampled (_timer sampled (timer_ok 1009)).1 ∧
    (_timer sampled (timer_ok 1009)).1._measurement_started_ms
      = sampled._measurement_started_ms ∧
    (_timer sampled (timer_ok 1009)).1._measurement_started_ms ≠ 0 ∧
    (_timer sampled (timer_ok 1009)).1 = sampled :=
  timer_not_ready sampled (timer_ok 1009) (by decide) (by decide)

/-- C5: for every triple of responses of four bytes (each 0..255) read
successfully, the value `_collect` converts into each committed pressure is the
lower 14 bits of the big-endian word `b0*256+b1` of the channel's response, in
0..16383, and the value it converts into each committed temperature is the upper
11 bits of the big-endian word `b2*256+b3`, that is `(b2*256+b3)/32`, in 0..2047:
the six committed values are the formulas of lines 201-207 at these codes. For
each response the decoded `p_XX` and `T_XX` are these codes, also when
`b0 >= 128` or `b2 >= 128`, where the 16-bit signed intermediate is negative. -/
theorem collect_raw_codes (s : Driver) (dRM dUD dLR : Data) (now : Nat)
    (hRM : dRM.wf) (hUD : dUD.wf) (hLR : dLR.wf) :
    ((_collect s (some dRM) (some dUD) (some dLR) now).1._pressure_RM =
        ((((dRM.b0 * 256 + dRM.b1) % 16384 : Nat) : ℚ) - B_min) * (5 * inh2o_to_pa)
          / (B_max - B_min) + 0 ∧
      (_collect s (some dRM) (some dUD) (some dLR) now).1._pressure_UD =
        ((((dUD.b0 * 256 + dUD.b1) % 16384 : Nat) : ℚ) - B_min) * (4 * inh2o_to_pa)
          / (B_max - B_min) + (-2 * inh2o_to_pa) ∧
      (_collect s (some dRM) (some dUD) (some dLR) now).1._pressure_LR =
        ((((dLR.b0 * 256 + dLR.b1) % 16384 : Nat) : ℚ) - B_min) * (4 * inh2o_to_pa)
          / (B_max - B_min) + (-2 * inh2o_to_pa) ∧
      (_collect s (some dRM) (some dUD) (some dLR) now).1._temperature_RM =
        (200 * ((((dRM.b2 * 256 + dRM.b3) / 32 : Nat) : ℚ))) / 2047 - 50 ∧
      (_collect s (some dRM) (some dUD) (some dLR) now).1._temperature_UD =
        (200 * ((((dUD.b2 * 256 + dUD.b3) / 32 : Nat) : ℚ))) / 2047 - 50 ∧
      (_collect s (some dRM) (some dUD) (some dLR) now).1._temperature_LR =
        (200 * ((((dLR.b2 * 256 + dLR.b3) / 32 : Nat) : ℚ))) / 2047 - 50) ∧
    (∀ d ∈ [dRM, dUD, dLR],
      raw_p d = (d.b0 * 256 + d.b1) % 16384 ∧ raw_p d < 16384 ∧
      raw_T d = (d.b2 * 256 + d.b3) / 32 ∧ raw_T d < 2048 ∧
      int16_val (raw_p d) = (((d.b0 * 256 + d.b1) % 16384 : Nat) : Int) ∧
      int16_val (raw_T d) = (((d.b2 * 256 + d.b3) / 32 : Nat) : Int) ∧
      (128 ≤ d.b0 → int16_val (p_word d) < 0) ∧
      (128 ≤ d.b2 → int16_val (T_word d) < 0)) := by
  refine ⟨?_, ?_⟩
  · rw [collect_some]
    exact ⟨pressure_RM_of_raw dRM, pressure_UD_of_raw dUD, pressure_UD_of_raw dLR,
      temperature_of_raw dRM hRM, temperature_of_raw dUD hUD, temperature_of_raw dLR hLR⟩
  · intro d hd
    have hw : d.wf := by
      simp only [List.mem_cons, List.mem_singleton, List.not_mem_nil, or_false] at hd
      rcases hd with h | h | h <;> rw [h] <;> assumption
    exact raw_codes_of_response d hw

/-- Witness of C5: the responses `FF FF FF FF` (RM, both intermediates negative),
`12 34 56 78` (UD) and `00 00 00 00` (LR), collected on the state `sampled`. -/
theorem collect_raw_codes_witness :
    ((255 * 256 + 255) % 16384 = 16383 ∧ (255 * 256 + 255) / 32 = 2047) ∧
    ((_collect sampled (some ⟨255, 255, 255, 255⟩) (some ⟨0x12, 0x34, 0x56, 0x78⟩)
        (some zero_data) 2000).1._pressure_RM =
        ((((255 * 256 + 255) % 16384 : Nat) : ℚ) - B_min) * (5 * inh2o_to_pa)
          / (B_max - B_min) + 0 ∧
      (_collect sampled (some ⟨255, 255, 255, 255⟩) (some ⟨0x12, 0x34, 0x56, 0x78⟩)
        (some zero_data) 2000).1._pressure_UD =
        ((((0x12 * 256 + 0x34) % 16384 : Nat) : ℚ) - B_min) * (4 * inh2o_to_pa)
          / (B_max - B_min) + (-2 * inh2o_to_pa) ∧
      (_collect sampled (some ⟨255, 255, 255, 255⟩) (some ⟨0x12, 0x34, 0x56, 0x78⟩)
        (some zero_data) 2000).1._temperature_RM =
        (200 * ((((255 * 256 + 255) / 32 : Nat) : ℚ))) / 2047 - 50) ∧
    (raw_p ⟨255, 255, 255, 255⟩ = (255 * 256 + 255) % 16384 ∧
      raw_T ⟨255, 255, 255, 255⟩ = (255 * 256 + 255) / 32) ∧
    int16_val (p_word ⟨255, 255, 255, 255⟩) < 0 ∧
    int16_val (T_word ⟨255, 255, 255, 255⟩) < 0 :=
  have h := collect_raw_codes sampled ⟨255, 255, 255, 255⟩ ⟨0x12, 0x34, 0x56, 0x78⟩
    zero_data 2000 (by decide) (by decide) (by decide)
  have hd := h.2 ⟨255, 255, 255, 255⟩ (List.mem_cons_self _ _)
  ⟨⟨by decide, by decide⟩, ⟨h.1.1, h.1.2.1, h.1.2.2.2.1⟩, ⟨hd.1, hd.2.2.1⟩,
   hd.2.2.2.2.2.2.1 (by decide), hd.2.2.2.2.2.2.2 (by decide)⟩

/-- C6: if any of the three reads fails, `_collect` leaves the six cached values
and `_last_sample_time_ms` unchanged; and the cached values are only overwritten
together: `_collect`, `_timer` and `init` either leave all of them (and
`_last_sample_time_ms`) as they were or, the three reads having succeeded,
replace all six by the conversions of the three responses, while `_measure` and
the accessors never change them. -/
theorem cached_all_or_nothing (s : Driver) :
    (∀ rd_RM rd_UD rd_LR now, (rd_RM = none ∨ rd_UD = none ∨ rd_LR = none) →
      same_sample s (_collect s rd_RM rd_UD rd_LR now).1) ∧
    (∀ rd_RM rd_UD rd_LR now,
      same_sample s (_collect s rd_RM rd_UD rd_LR now).1 ∨
      ∃ dRM dUD dLR, rd_RM = some dRM ∧ rd_UD = some dUD ∧ rd_LR = some dLR ∧
        committed (_collect s rd_RM rd_UD rd_LR now).1 dRM dUD dLR now) ∧
    (∀ c1 c2 c3 now, same_sample s (_measure s c1 c2 c3 now).1) ∧
    (∀ e : TimerEnv,
      same_sample s (_timer s e).1 ∨
      ∃ dRM dUD dLR, e.rd_RM = some dRM ∧ e.rd_UD = some dUD ∧ e.rd_LR = some dLR ∧
        committed (_timer s e).1 dRM dUD dLR e.t_collect) ∧
    (∀ e : InitEnv,
      same_sample s (init s e).2.1 ∨
      ∃ dRM dUD dLR, e.rd_RM = some dRM ∧ e.rd_UD = some dUD ∧ e.rd_LR = some dLR ∧
        committed (init s e).2.1 dRM dUD dLR e.t_collect) ∧
    (∀ now, same_sample s (get_pressure_RM s now).2 ∧
      same_sample s (get_pressure_UD s now).2 ∧ same_sample s (get_pressure_LR s now).2) ∧
    (same_sample s (get_temperature_RM s).2 ∧ same_sample s (get_temperature_UD s).2 ∧
      same_sample s (get_temperature_LR s).2) := by
  refine ⟨?_, ?_, ?_, ?_, ?_, ?_, ?_⟩
  · intro r1 r2 r3 now h
    exact same_sample_collect_none s r1 r2 r3 now h
  · intro r1 r2 r3 now
    exact collect_cases s r1 r2 r3 now
  · intro c1 c2 c3 now
    exact same_sample_measure s s c1 c2 c3 now (same_sample_refl s)
  · intro e
    rcases timer_state_cases s e with h | h | h
    · rw [h]; exact Or.inl (same_sample_refl s)
    · rw [h]; exact Or.inl (same_sample_measure s s _ _ _ _ (same_sample_refl s))
    · rw [h]
      rcases collect_cases s e.rd_RM e.rd_UD e.rd_LR e.t_collect with hc | ⟨d1, d2, d3, h1, h2, h3, hc⟩
      · exact Or.inl (same_sample_measure s _ _ _ _ _ hc)
      · exact Or.inr ⟨d1, d2, d3, h1, h2, h3, committed_measure _ _ _ _ _ _ _ _ _ hc⟩
  · intro e
    rcases init_state_cases s e with h | h
    · rw [h]; exact Or.inl (same_sample_refl s)
    · rw [h]
      have hm := measure_state s e.cmd_RM e.cmd_UD e.cmd_LR e.t_measure
      rcases collect_cases (_measure s e.cmd_RM e.cmd_UD e.cmd_LR e.t_measure).1
        e.rd_RM e.rd_UD e.rd_LR e.t_collect with hc | ⟨d1, d2, d3, h1, h2, h3, hc⟩
      · left
        rw [hm] at hc ⊢
        exact hc
      · exact Or.inr ⟨d1, d2, d3, h1, h2, h3, hc⟩
  · intro now
    unfold get_pressure_RM get_pressure_UD get_pressure_LR get_pressure
    refine ⟨?_, ?_, ?_⟩ <;> (split <;> [skip; split]) <;> simp [same_sample]
  · unfold get_temperature_RM get_temperature_UD get_temperature_LR
    refine ⟨?_, ?_, ?_⟩ <;> split <;> simp [same_sample]

/-- Witness of C6: a failed first read on the state `sampled`. -/
theorem cached_all_or_nothing_witness :
    same_sample sampled (_collect sampled none (some zero_data) (some zero_data) 2000).1 :=
  (cached_all_or_nothing sampled).1 none (some zero_data) (some zero_data) 2000 (Or.inl rfl)

/-- C7: `_measure` stores the clock value in `_measurement_started_ms` when the
three command transfers succeed and stores 0 when any of them fails; the clock is
read exactly in the first case (and for a non-zero clock value the stored value
equals it only then); the six cached values, `_last_sample_time_ms`, `_healthy`
and `_enable` are unchanged in both cases. -/
theorem measure_records_start (s : Driver) (cmd_RM cmd_UD cmd_LR : Bool) (now : Nat) :
    ((cmd_RM = true ∧ cmd_UD = true ∧ cmd_LR = true) →
      (_measure s cmd_RM cmd_UD cmd_LR now).1._measurement_started_ms = now) ∧
    (¬ (cmd_RM = true ∧ cmd_UD = true ∧ cmd_LR = true) →
      (_measure s cmd_RM cmd_UD cmd_LR now).1._measurement_started_ms = 0) ∧
    (Event.millis ∈ (_measure s cmd_RM cmd_UD cmd_LR now).2 ↔
      (cmd_RM = true ∧ cmd_UD = true ∧ cmd_LR = true)) ∧
    (now ≠ 0 →
      ((_measure s cmd_RM cmd_UD cmd_LR now).1._measurement_started_ms = now ↔
        (cmd_RM = true ∧ cmd_UD = true ∧ cmd_LR = true))) ∧
    same_sample s (_measure s cmd_RM cmd_UD cmd_LR now).1 ∧
    (_measure s cmd_RM cmd_UD cmd_LR now).1._healthy = s._healthy ∧
    (_measure s cmd_RM cmd_UD cmd_LR now).1._enable = s._enable := by
  refine ⟨?_, ?_, ?_, ?_, same_sample_measure s s _ _ _ _ (same_sample_refl s), ?_, ?_⟩
  · rintro ⟨h1, h2, h3⟩
    subst h1 h2 h3
    rfl
  · intro h
    cases cmd_RM <;> cases cmd_UD <;> cases cmd_LR <;> first | rfl | exact absurd ⟨rfl, rfl, rfl⟩ h
  · cases cmd_RM <;> cases cmd_UD <;> cases cmd_LR <;> simp [_measure]
  · intro hnow
    rw [measure_state]
    cases cmd_RM <;> cases cmd_UD <;> cases cmd_LR <;> simp <;> omega
  · rw [measure_state]
  · rw [measure_state]

/-- Witness of C7: success at time 1234 on the state `sampled`, and a failure of
the third transfer. -/
theorem measure_records_start_witness :
    (_measure sampled true true true 1234).1._measurement_started_ms = 1234 ∧
    (_measure sampled true true false 1234).1._measurement_started_ms = 0 ∧
    ((_measure sampled true true false 1234).1._measurement_started_ms = 1234 ↔
      (true = true ∧ true = true ∧ false = true)) :=
  ⟨(measure_records_start sampled true true true 1234).1 ⟨rfl, rfl, rfl⟩,
   (measure_records_start sampled true true false 1234).2.1 (by decide),
   (measure_records_start sampled true true false 1234).2.2.2.1 (by decide)⟩

/-- C8 as stated fails: when `AP_HAL::millis()` returns 0, `_measure` with three
successful transfers leaves `_measurement_started_ms` at 0, the value that means
that no measurement has been started. -/
theorem measure_at_clock_zero :
    (_measure sampled true true true 0).1._measurement_started_ms = 0 := by
  decide

/-- C8 amended: for every driver state and every clock value other than 0, after
`_measure` runs with the three command transfers succeeding,
`_measurement_started_ms` is non-zero. -/
theorem measure_in_flight (s : Driver) (now : Nat) (hnow : now ≠ 0) :
    (_measure s true true true now).1._measurement_started_ms ≠ 0 := by
  rw [measure_state]
  exact hnow

/-- Witness of the amended C8 at clock value 1. -/
theorem measure_in_flight_witness :
    (_measure fresh true true true 1).1._measurement_started_ms ≠ 0 :=
  measure_in_flight fresh 1 (by decide)

/-- C9: after `_collect` returns, `_measurement_started_ms` is 0, for every state,
every outcome of the three reads (failure or any four bytes) and every clock
value. -/
theorem collect_clears_start (s : Driver) (rd_RM rd_UD rd_LR : Option Data) (now : Nat) :
    (_collect s rd_RM rd_UD rd_LR now).1._measurement_started_ms = 0 := by
  cases rd_RM with
  | none => rfl
  | some d1 =>
    cases rd_UD with
    | none => rfl
    | some d2 =>
      cases rd_LR with
      | none => rfl
      | some d3 => rw [collect_some]

/-- C12: over exact rationals, for every triple of responses read successfully,
the pressures committed by `_collect` are `(p - B_min) * span / (B_max - B_min) +
offset` at the 14-bit code `p` of the channel's response, with
`B_min = 0.05 * 16383`, `B_max = 0.95 * 16383`, `k = 249.088908333` and
`(span, offset) = (5k, 0)` for RM and `(4k, -2k)` for UD and LR (these are the
constants of the source); this linear map takes `B_min` to the channel's offset
(0, `-2k`, `-2k`) and `B_max` to offset plus span. -/
theorem collect_pressure_linear (s : Driver) (dRM dUD dLR : Data) (now : Nat) :
    (_collect s (some dRM) (some dUD) (some dLR) now).1._pressure_RM
      = spec_pressure (5 * spec_k) 0 (code_p dRM) ∧
    (_collect s (some dRM) (some dUD) (some dLR) now).1._pressure_UD
      = spec_pressure (4 * spec_k) (-2 * spec_k) (code_p dUD) ∧
    (_collect s (some dRM) (some dUD) (some dLR) now).1._pressure_LR
      = spec_pressure (4 * spec_k) (-2 * spec_k) (code_p dLR) ∧
    (B_min = 0.05 * 16383 ∧ B_max = 0.95 * 16383 ∧ inh2o_to_pa = spec_k) ∧
    (spec_pressure (5 * spec_k) 0 (0.05 * 16383) = 0 ∧
      spec_pressure (4 * spec_k) (-2 * spec_k) (0.05 * 16383) = -2 * spec_k) ∧
    (spec_pressure (5 * spec_k) 0 (0.95 * 16383) = 0 + 5 * spec_k ∧
      spec_pressure (4 * spec_k) (-2 * spec_k) (0.95 * 16383) = -2 * spec_k + 4 * spec_k) := by
  rw [collect_some]
  refine ⟨pressure_RM_of_code dRM, pressure_UD_of_code dUD, pressure_UD_of_code dLR,
    ⟨rfl, rfl, rfl⟩, ⟨?_, ?_⟩, ⟨?_, ?_⟩⟩
  · exact spec_pressure_at_B_min _ _
  · exact spec_pressure_at_B_min _ _
  · exact spec_pressure_at_B_max _ _
  · exact spec_pressure_at_B_max _ _

/-- C13: over exact rationals, for every triple of responses read successfully
(bytes 0..255), the temperature committed by `_collect` for each channel is
`200 * raw / 2047 - 50` at the 11-bit temperature code `raw` of the channel's
response, and lies between -50 and 150; the formula gives -50 at code 0 and 150
at code 2047. -/
theorem collect_temperature_linear (s : Driver) (dRM dUD dLR : Data) (now : Nat)
    (hRM : dRM.wf) (hUD : dUD.wf) (hLR : dLR.wf) :
    ((_collect s (some dRM) (some dUD) (some dLR) now).1._temperature_RM
        = spec_temperature (code_T dRM) ∧
      -50 ≤ (_collect s (some dRM) (some dUD) (some dLR) now).1._temperature_RM ∧
      (_collect s (some dRM) (some dUD) (some dLR) now).1._temperature_RM ≤ 150) ∧
    ((_collect s (some dRM) (some dUD) (some dLR) now).1._temperature_UD
        = spec_temperature (code_T dUD) ∧
      -50 ≤ (_collect s (some dRM) (some dUD) (some dLR) now).1._temperature_UD ∧
      (_collect s (some dRM) (some dUD) (some dLR) now).1._temperature_UD ≤ 150) ∧
    ((_collect s (some dRM) (some dUD) (some dLR) now).1._temperature_LR
        = spec_temperature (code_T dLR) ∧
      -50 ≤ (_collect s (some dRM) (some dUD) (some dLR) now).1._temperature_LR ∧
      (_collect s (some dRM) (some dUD) (some dLR) now).1._temperature_LR ≤ 150) ∧
    spec_temperature (0 : Nat) = -50 ∧ spec_temperature (2047 : Nat) = 150 := by
  rw [collect_some]
  have r1 := spec_temperature_range _ (code_T_le dRM hRM)
  have r2 := spec_temperature_range _ (code_T_le dUD hUD)
  have r3 := spec_temperature_range _ (code_T_le dLR hLR)
  have e1 := temperature_of_code dRM hRM
  have e2 := temperature_of_code dUD hUD
  have e3 := temperature_of_code dLR hLR
  refine ⟨⟨e1, ?_, ?_⟩, ⟨e2, ?_, ?_⟩, ⟨e3, ?_, ?_⟩, ?_, ?_⟩
  · show -50 ≤ temperature_of (raw_T dRM)
    rw [e1]; exact r1.1
  · show temperature_of (raw_T dRM) ≤ 150
    rw [e1]; exact r1.2
  · show -50 ≤ temperature_of (raw_T dUD)
    rw [e2]; exact r2.1
  · show temperature_of (raw_T dUD) ≤ 150
    rw [e2]; exact r2.2
  · show -50 ≤ temperature_of (raw_T dLR)
    rw [e3]; exact r3.1
  · show temperature_of (raw_T dLR) ≤ 150
    rw [e3]; exact r3.2
  · unfold spec_temperature
    norm_num
  · unfold spec_temperature
    norm_num

/-- Witness of C13: the responses `00 00 00 00` (code 0), `00 00 FF FF` (code 2047)
and `00 00 80 00` (code 1024, negative 16-bit intermediate) on the state `fresh`. -/
theorem collect_temperature_linear_witness :
    (code_T zero_data = 0 ∧ code_T ⟨0, 0, 255, 255⟩ = 2047 ∧ code_T ⟨0, 0, 128, 0⟩ = 1024) ∧
    ((_collect fresh (some zero_data) (some ⟨0, 0, 255, 255⟩) (some ⟨0, 0, 128, 0⟩)
        7).1._temperature_RM = spec_temperature (code_T zero_data) ∧
      (_collect fresh (some zero_data) (some ⟨0, 0, 255, 255⟩) (some ⟨0, 0, 128, 0⟩)
        7).1._temperature_UD = spec_temperature (code_T ⟨0, 0, 255, 255⟩) ∧
      -50 ≤ (_collect fresh (some zero_data) (some ⟨0, 0, 255, 255⟩) (some ⟨0, 0, 128, 0⟩)
        7).1._temperature_LR ∧
      (_collect fresh (some zero_data) (some ⟨0, 0, 255, 255⟩) (some ⟨0, 0, 128, 0⟩)
        7).1._temperature_LR ≤ 150) :=
  have h := collect_temperature_linear fresh zero_data ⟨0, 0, 255, 255⟩ ⟨0, 0, 128, 0⟩ 7
    (by decide) (by decide) (by decide)
  ⟨⟨by decide, by decide, by decide⟩, h.1.1, h.2.1.1, h.2.2.1.2.1, h.2.2.1.2.2⟩

/-- C14: when the three locks are obtained and no measurement is in flight,
`_timer` performs exactly one `_measure` and no `_collect`, whatever the clock
values: the six cached values and `_last_sample_time_ms` are unchanged, and
`_measurement_started_ms` becomes the clock value if the three command transfers
succeed and stays 0 otherwise. -/
theorem timer_idle_measures (s : Driver) (e : TimerEnv)
    (hRM : e.take_RM = true) (hUD : e.take_UD = true) (hLR : e.take_LR = true)
    (hidle : s._measurement_started_ms = 0) :
    calls (_timer s e).2 = [Event.call_measure] ∧
    same_sample s (_timer s e).1 ∧
    ((e.cmd_RM = true ∧ e.cmd_UD = true ∧ e.cmd_LR = true) →
      (_timer s e).1._measurement_started_ms = e.t_measure) ∧
    (¬ (e.cmd_RM = true ∧ e.cmd_UD = true ∧ e.cmd_LR = true) →
      (_timer s e).1._measurement_started_ms = 0) ∧
    (_timer s e).1 = (_measure s e.cmd_RM e.cmd_UD e.cmd_LR e.t_measure).1 := by
  rw [timer_branch_measure s e hRM hUD hLR hidle]
  refine ⟨?_, same_sample_measure s s _ _ _ _ (same_sample_refl s), ?_, ?_, rfl⟩
  · simp only [calls_append, calls_measure]
    rfl
  · rintro ⟨h1, h2, h3⟩
    rw [h1, h2, h3]
    rfl
  · intro h
    show (_measure s e.cmd_RM e.cmd_UD e.cmd_LR e.t_measure).1._measurement_started_ms = 0
    rw [measure_state]
    cases h1 : e.cmd_RM <;> cases h2 : e.cmd_UD <;> cases h3 : e.cmd_LR <;>
      first | rfl | exact absurd ⟨h1, h2, h3⟩ h

/-- Witness of C14: the idle state `fresh`, a callback at time 77 with every
transfer succeeding, and one whose second command transfer fails. -/
theorem timer_idle_measures_witness :
    (calls (_timer fresh (timer_ok 77)).2 = [Event.call_measure] ∧
      same_sample fresh (_timer fresh (timer_ok 77)).1) ∧
    (_timer fresh (timer_ok 77)).1._measurement_started_ms = (timer_ok 77).t_measure ∧
    (_timer fresh { timer_ok 77 with cmd_UD := false }).1._measurement_started_ms = 0 :=
  have h := timer_idle_measures fresh (timer_ok 77) rfl rfl rfl rfl
  ⟨⟨h.1, h.2.1⟩, h.2.2.1 ⟨rfl, rfl, rfl⟩,
   (timer_idle_measures fresh { timer_ok 77 with cmd_UD := false } rfl rfl rfl rfl).2.2.2.1
     (by decide)⟩

/-- C15: when at least one of the three non-blocking lock acquisitions fails,
`_timer` makes no bus transfer, calls neither `_measure` nor `_collect`, and
leaves the driver state unchanged: `_measurement_started_ms`,
`_last_sample_time_ms`, `_healthy` and the six cached values keep their values. -/
theorem timer_contention_noop (s : Driver) (e : TimerEnv)
    (hfail : e.take_RM = false ∨ e.take_UD = false ∨ e.take_LR = false) :
    transfers (_timer s e).2 = [] ∧ calls (_timer s e).2 = [] ∧
    (_timer s e).1._measurement_started_ms = s._measurement_started_ms ∧
    (_timer s e).1._healthy = s._healthy ∧
    same_sample s (_timer s e).1 ∧
    (_timer s e).1 = s := by
  obtain ⟨hst, hcalls, htr⟩ := timer_branch_skip s e hfail
  refine ⟨htr, hcalls, ?_, ?_, ?_, hst⟩
  · rw [hst]
  · rw [hst]
  · rw [hst]
    exact same_sample_refl s

/-- Witness of C15: the state `sampled`, more than 10 ms after the start of the
measurement, with the lock of UD not obtained. -/
theorem timer_contention_noop_witness :
    transfers (_timer sampled timer_UD_busy).2 = [] ∧
    calls (_timer sampled timer_UD_busy).2 = [] ∧
    (_timer sampled timer_UD_busy).1._measurement_started_ms
      = sampled._measurement_started_ms ∧
    (_timer sampled timer_UD_busy).1._healthy = sampled._healthy ∧
    same_sample sampled (_timer sampled timer_UD_busy).1 ∧
    (_timer sampled timer_UD_busy).1 = sampled :=
  timer_contention_noop sampled timer_UD_busy (Or.inr (Or.inl rfl))

/-- C16: when the enable parameter is 0, each of the six read accessors returns 0,
for every value of the cached pressures and temperatures, of
`_last_sample_time_ms` and of the clock (and changes nothing in the state). -/
theorem accessors_disabled (s : Driver) (now : Nat) (hdis : s._enable = 0) :
    get_pressure_RM s now = (0, s) ∧ get_pressure_UD s now = (0, s) ∧
    get_pressure_LR s now = (0, s) ∧ get_temperature_RM s = (0, s) ∧
    get_temperature_UD s = (0, s) ∧ get_temperature_LR s = (0, s) := by
  have he : enabled s = false := by simp [enabled, hdis]
  simp [get_pressure_RM, get_pressure_UD, get_pressure_LR, get_pressure,
    get_temperature_RM, get_temperature_UD, get_temperature_LR, he]

/-- Witness of C16: the state `disabled`, whose cached values are non-zero, read at
time 1001 (the sample is 1 ms old). -/
theorem accessors_disabled_witness :
    get_pressure_RM disabled 1001 = (0, disabled) ∧
    get_pressure_UD disabled 1001 = (0, disabled) ∧
    get_pressure_LR disabled 1001 = (0, disabled) ∧
    get_temperature_RM disabled = (0, disabled) ∧
    get_temperature_UD disabled = (0, disabled) ∧
    get_temperature_LR disabled = (0, disabled) :=
  accessors_disabled disabled 1001 rfl

/-- C17: the method `healthy()` returns `_healthy AND (enable parameter non-zero)`;
in particular it returns false whenever the enable parameter is 0, also when
`_healthy` is true. -/
theorem healthy_is_flag_and_enabled (s : Driver) :
    healthy s = (s._healthy && enabled s) ∧
    (enabled s = true ↔ s._enable ≠ 0) ∧
    (healthy s = true ↔ (s._healthy = true ∧ s._enable ≠ 0)) ∧
    (s._enable = 0 → healthy s = false) := by
  refine ⟨rfl, ?_, ?_, ?_⟩
  · simp [enabled]
  · simp [healthy, enabled]
  · intro h
    simp [healthy, enabled, h]

/-- Witness of C17: the state `disabled` has `_healthy` true and is not healthy. -/
theorem healthy_is_flag_and_enabled_witness :
    disabled._healthy = true ∧ healthy disabled = false :=
  ⟨rfl, (healthy_is_flag_and_enabled disabled).2.2.2 rfl⟩

/-- C18: with the enable parameter non-zero, each temperature accessor returns the
cached temperature of its channel and leaves the whole state, `_healthy`
included, unchanged; the accessors read neither the clock nor
`_last_sample_time_ms`, so this holds for every value of both. -/
theorem get_temperature_cached (s : Driver) (hen : s._enable ≠ 0) :
    get_temperature_RM s = (s._temperature_RM, s) ∧
    get_temperature_UD s = (s._temperature_UD, s) ∧
    get_temperature_LR s = (s._temperature_LR, s) ∧
    (∀ last : Nat,
      get_temperature_RM { s with _last_sample_time_ms := last }
        = (s._temperature_RM, { s with _last_sample_time_ms := last }) ∧
      get_temperature_UD { s with _last_sample_time_ms := last }
        = (s._temperature_UD, { s with _last_sample_time_ms := last }) ∧
      get_temperature_LR { s with _last_sample_time_ms := last }
        = (s._temperature_LR, { s with _last_sample_time_ms := last })) := by
  have he : enabled s = true := by simp [enabled, hen]
  have he2 : ∀ last : Nat, enabled { s with _last_sample_time_ms := last } = true := by
    intro last
    simp [enabled, hen]
  simp [get_temperature_RM, get_temperature_UD, get_temperature_LR, he, he2]

/-- Witness of C18: the state `sampled` (cached temperatures 4, 5, 6). -/
theorem get_temperature_cached_witness :
    get_temperature_RM sampled = (4, sampled) ∧
    get_temperature_UD sampled = (5, sampled) ∧
    get_temperature_LR sampled = (6, sampled) :=
  have h := get_temperature_cached sampled (by decide)
  ⟨h.1, h.2.1, h.2.2.1⟩

/-- C19 (the code departs from the claim): when `take_nonblocking()` succeeds for
RM and fails for UD, `_timer` returns after these two calls without any `give()`,
so the lock of RM, not held before the invocation, is held after it. -/
theorem timer_contention_keeps_lock :
    timer_UD_busy.take_RM = true ∧ timer_UD_busy.take_UD = false ∧
    (_timer sampled timer_UD_busy).2 =
      [Event.take_nonblocking Chan.RM true, Event.take_nonblocking Chan.UD false] ∧
    held_after [] (_timer sampled timer_UD_busy).2 = [Chan.RM] := by
  decide

end HGM_ThreePresSnsr
